import Mathlib

/-!
Verification of the remote command-orchestration engine of the
`nodejs_installer` provisioning scripts.

The scripts drive a remote Debian host over one SSH session: each installer
serially executes shell commands, classifies each command by exit status,
and short-circuits installation when an idempotency probe reports the target
already satisfied.

Embedding conventions:
* A remote host is an abstract state type `σ`; a session (`Conn σ`) maps a
  host state and a command string to an outcome and a successor state.
* An outcome is either a completed command (`ExecOutcome.ok`, any exit code)
  or a transport-level failure (`ExecOutcome.err`, the `conn.exec` callback
  error: the command could not be dispatched on the channel).
* A JavaScript promise is `PResult`: `resolved` or `rejected` (a thrown
  `Error`'s message).
* `ExecState` carries the host state plus the list of commands dispatched so
  far, in dispatch order, so that theorems can speak about which commands an
  operation issues.
* Progress logging (`this.log`) has no effect on control flow or data and is
  not modelled; branches of the source that only log are noted in comments.
-/

/-- Command Result of one executed command: captured stdout, captured stderr,
and the integer exit status (`{ output, errorOutput, exitCode }`). -/
structure CmdResult where
  output : String
  errorOutput : String
  exitCode : Int
  deriving Repr, DecidableEq

/-- Outcome of dispatching one command on the channel: the command completed
(with any exit code), or the transport failed (`conn.exec` callback error). -/
inductive ExecOutcome where
  | ok (r : CmdResult)
  | err (msg : String)
  deriving Repr, DecidableEq

/-- Result of a JavaScript promise: resolved with a value, or rejected with
the message of the thrown `Error`. -/
inductive PResult (α : Type) where
  | resolved (a : α)
  | rejected (msg : String)
  deriving Repr, DecidableEq

/-- A remote session: dispatching one shell command transforms the host state
and yields an `ExecOutcome`. -/
def Conn (σ : Type) := σ → String → ExecOutcome × σ

/-- Session state threaded through an orchestration run: the abstract host
state plus the commands dispatched so far (in order). -/
structure ExecState (σ : Type) where
  host : σ
  trace : List String
  deriving Repr, DecidableEq

/-- `executeCommand(conn, command, description, suppressOutput)`, shared
verbatim by every installer class: dispatches one command; if the channel
callback reports an error the promise rejects; otherwise the close handler
resolves with `{ output, errorOutput, exitCode }` in both the `code === 0`
branch and the non-zero branch (the two branches differ only in logging).
The dispatched command is recorded on the trace. -/
def executeCommand {σ : Type} (conn : Conn σ) (st : ExecState σ) (cmd : String) :
    PResult CmdResult × ExecState σ :=
  match conn st.host cmd with
  | (ExecOutcome.err m, h) => (PResult.rejected m, ⟨h, st.trace ++ [cmd]⟩)
  | (ExecOutcome.ok r, h) =>
      if r.exitCode = 0 then (PResult.resolved r, ⟨h, st.trace ++ [cmd]⟩)
      else (PResult.resolved r, ⟨h, st.trace ++ [cmd]⟩)

/-- `await this.executeCommand(...)` inside a try-block whose catch rethrows:
a rejection propagates, a resolution (any exit code) continues with the
command result. -/
def execStep {σ α : Type} (conn : Conn σ) (st : ExecState σ) (cmd : String)
    (k : CmdResult → ExecState σ → PResult α × ExecState σ) :
    PResult α × ExecState σ :=
  match executeCommand conn st cmd with
  | (PResult.rejected m, s) => (PResult.rejected m, s)
  | (PResult.resolved r, s) => k r s

/-- Does `pat` occur as a contiguous run starting at some position of `l`? -/
def strContainsAux (pat : List Char) : List Char → Bool
  | [] => pat.isPrefixOf []
  | c :: rest => pat.isPrefixOf (c :: rest) || strContainsAux pat rest

/-- JavaScript `s.includes(pat)`: substring containment. -/
def jsIncludes (s pat : String) : Bool := strContainsAux pat.data s.data

/-- Drop leading whitespace characters. -/
def trimLeftChars : List Char → List Char
  | [] => []
  | c :: r => if c.isWhitespace then trimLeftChars r else c :: r

/-- JavaScript `s.trim()`: strip whitespace from both ends. -/
def jsTrim (s : String) : String :=
  ⟨(trimLeftChars (trimLeftChars s.data).reverse).reverse⟩

/-- Split a character list at every character satisfying `p` (separators are
consumed; empty runs are kept, as JavaScript `split` does). -/
def splitOnPred (p : Char → Bool) : List Char → List (List Char)
  | [] => [[]]
  | x :: r =>
      let rest := splitOnPred p r
      if p x then [] :: rest
      else
        match rest with
        | [] => [[x]]
        | h :: t => (x :: h) :: t

/-- JavaScript `s.split(c)` for a one-character separator. -/
def jsSplitChar (s : String) (c : Char) : List String :=
  (splitOnPred (fun x => x == c) s.data).map (fun l => ⟨l⟩)

/-- JavaScript `array.join(sep)`. -/
def jsJoin (sep : String) : List String → String
  | [] => ""
  | [x] => x
  | x :: y :: xs => x ++ sep ++ jsJoin sep (y :: xs)

namespace BasicToolsInstaller

/-- `this.toolMapping`: tool key, probe command name, apt package name. -/
def toolMapping : List (String × String × String) :=
  [("git", "git", "git"),
   ("htop", "htop", "htop"),
   ("ripgrep", "rg", "ripgrep"),
   ("build-essential", "gcc", "build-essential"),
   ("curl", "curl", "curl"),
   ("wget", "wget", "wget"),
   ("vim", "vim", "vim-nox"),
   ("mc", "mc", "mc"),
   ("unzip", "unzip", "unzip")]

/-- `this.tools = Object.keys(this.toolMapping)`. -/
def tools : List String := toolMapping.map (fun e => e.1)

/-- `getCommandName(tool)`. -/
def getCommandName (tool : String) : String :=
  match toolMapping.find? (fun e => e.1 == tool) with
  | some e => e.2.1
  | none => tool

/-- `getPackageName(tool)`. -/
def getPackageName (tool : String) : String :=
  match toolMapping.find? (fun e => e.1 == tool) with
  | some e => e.2.2
  | none => tool

/-- The probe command issued by `checkToolInstalled`. -/
def checkCmd (tool : String) : String :=
  "command -v " ++ getCommandName tool ++ " >/dev/null 2>&1 && echo \"installed\""

/-- `checkToolInstalled(conn, tool)`: the catch clause coerces any rejection
to `false`; otherwise `exitCode === 0 && output.trim() === 'installed'`. -/
def checkToolInstalled {σ : Type} (conn : Conn σ) (st : ExecState σ) (tool : String) :
    Bool × ExecState σ :=
  match executeCommand conn st (checkCmd tool) with
  | (PResult.rejected _, st') => (false, st')
  | (PResult.resolved r, st') =>
      ((r.exitCode == 0) && (jsTrim r.output == "installed"), st')

/-- Probe Result of `checkBasicToolsInstalled`. -/
structure ToolsCheckResult where
  installed : List String
  missing : List String
  allInstalled : Bool
  deriving Repr, DecidableEq

/-- The `for (const tool of this.tools)` loop of `checkBasicToolsInstalled`:
probes each tool in order, appending it to the installed or the missing
accumulator. -/
def checkToolsLoop {σ : Type} (conn : Conn σ) :
    List String → List String → List String → ExecState σ →
    List String × List String × ExecState σ
  | [], inst, miss, st => (inst, miss, st)
  | tool :: rest, inst, miss, st =>
      match checkToolInstalled conn st tool with
      | (true, s') => checkToolsLoop conn rest (inst ++ [tool]) miss s'
      | (false, s') => checkToolsLoop conn rest inst (miss ++ [tool]) s'

/-- `checkBasicToolsInstalled(conn)`: probes each tool in order, partitioning
into installed/missing; `allInstalled := missingTools.length === 0`. -/
def checkBasicToolsInstalled {σ : Type} (conn : Conn σ) (st : ExecState σ) :
    ToolsCheckResult × ExecState σ :=
  match checkToolsLoop conn tools [] [] st with
  | (inst, miss, s') =>
      ({ installed := inst, missing := miss, allInstalled := miss.length == 0 },
       s')

/-- `installBasicTools(conn)`: probe first; if all installed return the probe
result unchanged. Otherwise run `sudo apt update`, then (when the package
list is non-empty) `sudo apt install -y <packages>` — the exit codes of the
two apt steps are not inspected — and finally re-probe; the returned outcome
is derived from that final probe. Rejections propagate (the catch rethrows). -/
def installBasicTools {σ : Type} (conn : Conn σ) (st : ExecState σ) :
    PResult ToolsCheckResult × ExecState σ :=
  match checkBasicToolsInstalled conn st with
  | (checkResult, st1) =>
    if checkResult.allInstalled then (PResult.resolved checkResult, st1)
    else
      execStep conn st1 "sudo apt update" (fun _ st2 =>
        let packagesToInstall :=
          jsJoin " " (checkResult.missing.map getPackageName)
        let afterInstall : PResult Unit × ExecState σ :=
          if packagesToInstall == "" then (PResult.resolved (), st2)
          else execStep conn st2 ("sudo apt install -y " ++ packagesToInstall)
            (fun _ s => (PResult.resolved (), s))
        match afterInstall with
        | (PResult.rejected m, s) => (PResult.rejected m, s)
        | (PResult.resolved _, st3) =>
          match checkBasicToolsInstalled conn st3 with
          | (finalCheck, st4) =>
            if finalCheck.allInstalled then
              (PResult.resolved
                { installed := finalCheck.installed, missing := [],
                  allInstalled := true }, st4)
            else (PResult.resolved finalCheck, st4))

end BasicToolsInstaller

namespace NginxInstaller

/-- Probe Result of `checkNginxInstalled`: the `installed:false` return carries
no `version` field, modelled as `none`. -/
structure NginxCheckResult where
  installed : Bool
  version : Option String
  running : Bool
  deriving Repr, DecidableEq

/-- The well-known binary locations tried first by the probe. -/
def nginxPaths : List String :=
  ["/usr/sbin/nginx", "/usr/bin/nginx", "/usr/local/nginx/sbin/nginx",
   "/usr/local/sbin/nginx"]

/-- `version = versionResult.output.trim() || versionResult.errorOutput.trim()`. -/
def pickVersion (r : CmdResult) : String :=
  if jsTrim r.output == "" then jsTrim r.errorOutput else jsTrim r.output

/-- The `for (const path of nginxPaths)` loop (detection method 1 of the probe
and, verbatim, of the post-install verification): run `<path> -v 2>&1` at each
location; a per-path catch swallows rejections; on exit 0 the `version`
variable is overwritten with the trimmed output (stdout, else stderr) and the
loop breaks when it is non-empty. Returns the `installed` flag and the final
value of `version`. -/
def checkNginxPaths {σ : Type} (conn : Conn σ) :
    List String → String → ExecState σ → (Bool × String) × ExecState σ
  | [], version, st => ((false, version), st)
  | path :: rest, version, st =>
      match executeCommand conn st (path ++ " -v 2>&1") with
      | (PResult.rejected _, st') => checkNginxPaths conn rest version st'
      | (PResult.resolved r, st') =>
          if r.exitCode == 0 then
            let v := pickVersion r
            if v == "" then checkNginxPaths conn rest v st'
            else ((true, v), st')
          else checkNginxPaths conn rest version st'

/-- Detection method 2 (probe and verification): `command -v nginx`, then run
`<resolved path> -v 2>&1`; the surrounding catch swallows rejections. -/
def checkNginxCommandV {σ : Type} (conn : Conn σ) (version : String)
    (st : ExecState σ) : (Bool × String) × ExecState σ :=
  match executeCommand conn st "command -v nginx" with
  | (PResult.rejected _, st') => ((false, version), st')
  | (PResult.resolved which, st') =>
      if which.exitCode == 0 then
        let nginxPath := jsTrim which.output
        match executeCommand conn st' (nginxPath ++ " -v 2>&1") with
        | (PResult.rejected _, st'') => ((false, version), st'')
        | (PResult.resolved r, st'') =>
            if r.exitCode == 0 then
              let v := pickVersion r
              if v == "" then ((false, v), st'') else ((true, v), st'')
            else ((false, version), st'')
      else ((false, version), st')

/-- The package-manager probe command (method 3). -/
def dpkgCmd : String := "dpkg -l nginx 2>/dev/null | grep \"^ii\""

/-- Models JavaScript `s.split(/\s+/)` for an already-trimmed `s`: the empty
string yields `[""]`; otherwise whitespace runs separate the tokens. -/
def jsSplitWs (s : String) : List String :=
  if s == "" then [""]
  else ((splitOnPred (fun c => c.isWhitespace) s.data).filter
    (fun t => !t.isEmpty)).map (fun l => ⟨l⟩)

/-- Version extraction from the first `dpkg -l` output line: `nginx/<field 3>`
when the line has at least three whitespace-separated fields, otherwise
`package-installed` (`split('\n')` never yields an empty array, so the
`dpkgLines.length > 0` test always passes). -/
def dpkgVersion (out : String) : String :=
  match jsSplitChar (jsTrim out) (Char.ofNat 10) with
  | [] => "package-installed"
  | l :: _ =>
      let parts := jsSplitWs (jsTrim l)
      if 3 ≤ parts.length then "nginx/" ++ parts.getD 2 ""
      else "package-installed"

/-- Detection method 3 (probe and verification): `dpkg -l nginx`; exit 0
means installed, with the version mined from the output; rejections are
swallowed by the surrounding catch. -/
def checkNginxDpkg {σ : Type} (conn : Conn σ) (version : String)
    (st : ExecState σ) : (Bool × String) × ExecState σ :=
  match executeCommand conn st dpkgCmd with
  | (PResult.rejected _, st') => ((false, version), st')
  | (PResult.resolved r, st') =>
      if r.exitCode == 0 then ((true, dpkgVersion r.output), st')
      else ((false, version), st')

/-- The service-manager probe command (method 4 of `checkNginxInstalled`). -/
def listUnitsCmd : String :=
  "systemctl list-units --type=service --all | grep -q nginx"

/-- Detection method 4 of the probe: does a unit mentioning nginx exist? -/
def checkNginxService {σ : Type} (conn : Conn σ) (version : String)
    (st : ExecState σ) : (Bool × String) × ExecState σ :=
  match executeCommand conn st listUnitsCmd with
  | (PResult.rejected _, st') => ((false, version), st')
  | (PResult.resolved r, st') =>
      if r.exitCode == 0 then ((true, "service-installed"), st')
      else ((false, version), st')

/-- The running sub-state probe command. -/
def isActiveCmd : String := "systemctl is-active nginx"

/-- `systemctl is-active nginx`: running iff the trimmed output is `active`;
a rejection is coerced to not-running. -/
def checkNginxActive {σ : Type} (conn : Conn σ) (st : ExecState σ) :
    Bool × ExecState σ :=
  match executeCommand conn st isActiveCmd with
  | (PResult.rejected _, st') => (false, st')
  | (PResult.resolved r, st') => (jsTrim r.output == "active", st')

/-- `checkNginxInstalled(conn)`: detection methods in fixed fallback order —
well-known binary paths, `command -v nginx`, `dpkg`, `systemctl list-units` —
each tried only while `installed` is still false; then, only when installed,
the running sub-state probe. Every rejection is swallowed by a per-method
catch, so the probe never fails; no positive signal yields
`{ installed: false, running: false }`. -/
def checkNginxInstalled {σ : Type} (conn : Conn σ) (st : ExecState σ) :
    NginxCheckResult × ExecState σ :=
  match checkNginxPaths conn nginxPaths "unknown" st with
  | ((i1, v1), st1) =>
    match if i1 then ((i1, v1), st1) else checkNginxCommandV conn v1 st1 with
    | ((i2, v2), st2) =>
      match if i2 then ((i2, v2), st2) else checkNginxDpkg conn v2 st2 with
      | ((i3, v3), st3) =>
        match if i3 then ((i3, v3), st3) else checkNginxService conn v3 st3 with
        | ((i4, v4), st4) =>
          if i4 then
            match checkNginxActive conn st4 with
            | (running, st5) =>
                ({ installed := true, version := some v4, running := running },
                 st5)
          else ({ installed := false, version := none, running := false }, st4)

/-- The mutating steps of the nginx Installation Sequencer, in dispatch
order (exit codes of these steps are not inspected by the sequencer). -/
def aptUpdateCmd : String := "sudo apt update"

def prereqCmd : String :=
  "sudo apt install -y curl gnupg2 ca-certificates lsb-release debian-archive-keyring"

def keyImportCmd : String :=
  "curl https://nginx.org/keys/nginx_signing.key | gpg --dearmor | sudo tee /usr/share/keyrings/nginx-archive-keyring.gpg >/dev/null"

def mkdirGnupgCmd : String := "mkdir -p ~/.gnupg"

def gpgVerifyCmd : String :=
  "gpg --dry-run --quiet --no-keyring --import --import-options import-show /usr/share/keyrings/nginx-archive-keyring.gpg"

def addRepoCmd : String :=
  "echo \"deb [signed-by=/usr/share/keyrings/nginx-archive-keyring.gpg] http://nginx.org/packages/debian `lsb_release -cs` nginx\" | sudo tee /etc/apt/sources.list.d/nginx.list"

def pinningCmd : String :=
  "echo -e \"Package: *\nPin: origin nginx.org\nPin: release o=nginx\nPin-Priority: 900\n\" | sudo tee /etc/apt/preferences.d/99nginx"

def aptInstallNginxCmd : String := "sudo apt install -y nginx"

def startNginxCmd : String := "sudo systemctl start nginx"

/-- The service fallback of the post-install verification — note: a different
command than the probe's `listUnitsCmd`. -/
def verifyServiceCmd : String :=
  "systemctl is-enabled nginx || systemctl status nginx --no-pager -l"

/-- The post-install verification inlined in `installNginx` (lines 374-484):
the same binary-path loop, `command -v` step and `dpkg` step as the probe
(the source duplicates that code verbatim), but with
`systemctl is-enabled nginx || systemctl status nginx --no-pager -l` as the
final service fallback. -/
def verifyNginxInstall {σ : Type} (conn : Conn σ) (st : ExecState σ) :
    (Bool × String) × ExecState σ :=
  match checkNginxPaths conn nginxPaths "unknown" st with
  | ((i1, v1), st1) =>
    match if i1 then ((i1, v1), st1) else checkNginxCommandV conn v1 st1 with
    | ((i2, v2), st2) =>
      match if i2 then ((i2, v2), st2) else checkNginxDpkg conn v2 st2 with
      | ((i3, v3), st3) =>
        if i3 then ((true, v3), st3)
        else
          match executeCommand conn st3 verifyServiceCmd with
          | (PResult.rejected _, st4) => ((false, v3), st4)
          | (PResult.resolved r, st4) =>
              if r.exitCode == 0 then ((true, "service-installed"), st4)
              else ((false, v3), st4)

/-- `installNginx(conn)`: probe first and return the probe result unchanged
when already installed. Otherwise dispatch the sequencer steps — apt update,
prerequisites, signing-key import, (caught) gpg directory + key verification,
repository registration, pinning, apt update, apt install — awaiting each
without inspecting its exit code, then run the inlined post-install
verification. On success, attempt `sudo systemctl start nginx` (a rejection
is caught and only logged) and return
`{ installed: true, version, running: true }`; otherwise throw the
verification-failure error. The signing-key fingerprint inspection only logs
a warning and is not modelled. -/
def installNginx {σ : Type} (conn : Conn σ) (st : ExecState σ) :
    PResult NginxCheckResult × ExecState σ :=
  match checkNginxInstalled conn st with
  | (checkResult, st1) =>
    if checkResult.installed then (PResult.resolved checkResult, st1)
    else
      execStep conn st1 aptUpdateCmd (fun _ s1 =>
      execStep conn s1 prereqCmd (fun _ s2 =>
      execStep conn s2 keyImportCmd (fun _ s3 =>
        let s5 :=
          match executeCommand conn s3 mkdirGnupgCmd with
          | (PResult.rejected _, s4) => s4
          | (PResult.resolved _, s4) => (executeCommand conn s4 gpgVerifyCmd).2
        execStep conn s5 addRepoCmd (fun _ s6 =>
        execStep conn s6 pinningCmd (fun _ s7 =>
        execStep conn s7 aptUpdateCmd (fun _ s8 =>
        execStep conn s8 aptInstallNginxCmd (fun _ s9 =>
          match verifyNginxInstall conn s9 with
          | ((verified, version), s10) =>
            if verified then
              let s11 := (executeCommand conn s10 startNginxCmd).2
              (PResult.resolved
                { installed := true, version := some version, running := true },
               s11)
            else
              (PResult.rejected
                "Installation verification failed - nginx command not found in PATH",
               s10))))))))

end NginxInstaller

namespace SimpleSSLInstaller

/-- The mutating setup commands of the domain-reachability test. -/
def acmeDirCmd : String :=
  "sudo mkdir -p /usr/share/nginx/html/.well-known/acme-challenge"

def chownHtmlCmd : String :=
  "sudo chown -R www-data:www-data /usr/share/nginx/html"

/-- `testContent` interpolates `new Date().toISOString()`; the clock reading
is passed in as `now`. -/
def teeTestFileCmd (domain now : String) : String :=
  "echo \"Domain reachability test for " ++ domain ++ " - " ++ now ++
  "\" | sudo tee /usr/share/nginx/html/.well-known/acme-challenge/domain-test.txt > /dev/null"

def curlTestCmd (domain : String) : String :=
  "curl -s -I http://" ++ domain ++
  "/.well-known/acme-challenge/domain-test.txt | head -1"

/-- `testDomainReachability(conn, domain)`: creates the ACME challenge
directory, sets its ownership, writes a test file, then curls it through the
domain; succeeds iff the curl response line contains `200` or `404`,
otherwise throws the not-reachable error. The catch rethrows. -/
def testDomainReachability {σ : Type} (conn : Conn σ) (domain now : String)
    (st : ExecState σ) : PResult Bool × ExecState σ :=
  execStep conn st acmeDirCmd (fun _ s1 =>
  execStep conn s1 chownHtmlCmd (fun _ s2 =>
  execStep conn s2 (teeTestFileCmd domain now) (fun _ s3 =>
  execStep conn s3 (curlTestCmd domain) (fun testResult s4 =>
    if jsIncludes testResult.output "200" || jsIncludes testResult.output "404" then
      (PResult.resolved true, s4)
    else
      (PResult.rejected
        ("Domain " ++ domain ++ " is not properly configured or reachable"),
       s4)))))

/-- The renewal-hook shell script written by `createRenewalHook`. -/
def hookScript : String :=
  "#!/bin/bash\n# Let\x27s Encrypt certificate renewal hook\n# This script reloads nginx after certificate renewal\n\n# Log the renewal\necho \"$(date): SSL certificate renewed, reloading nginx...\" >> /var/log/letsencrypt-renewal.log\n\n# Reload nginx to pick up new certificates\nsudo systemctl reload nginx\n\n# Log success\necho \"$(date): Nginx reloaded successfully\" >> /var/log/letsencrypt-renewal.log\n\nexit 0"

def hookDirCmd : String := "sudo mkdir -p /etc/letsencrypt/renewal-hooks/post"

def hookWriteCmd : String :=
  "cat > /tmp/nginx-reload-hook.sh << \x27EOF\x27\n" ++ hookScript ++ "\nEOF"

def hookMoveCmd : String :=
  "sudo mv /tmp/nginx-reload-hook.sh /etc/letsencrypt/renewal-hooks/post/nginx-reload.sh"

def hookChmodCmd : String :=
  "sudo chmod +x /etc/letsencrypt/renewal-hooks/post/nginx-reload.sh"

/-- `createRenewalHook(conn)`: writes and installs the nginx reload hook; its
catch only logs, so a rejection anywhere skips the remaining hook commands
but never fails the caller. -/
def createRenewalHook {σ : Type} (conn : Conn σ) (st : ExecState σ) :
    ExecState σ :=
  match executeCommand conn st hookDirCmd with
  | (PResult.rejected _, s) => s
  | (PResult.resolved _, s1) =>
    match executeCommand conn s1 hookWriteCmd with
    | (PResult.rejected _, s) => s
    | (PResult.resolved _, s2) =>
      match executeCommand conn s2 hookMoveCmd with
      | (PResult.rejected _, s) => s
      | (PResult.resolved _, s3) => (executeCommand conn s3 hookChmodCmd).2

def certbotInstallCmd : String :=
  "sudo apt install -y certbot python3-certbot-nginx"

def certbotVersionCmd : String := "certbot --version"

/-- `installCertbot(conn)`: apt update, apt install certbot (exit codes not
inspected), the renewal hook, then `certbot --version` as verification —
non-zero throws the verification error. -/
def installCertbot {σ : Type} (conn : Conn σ) (st : ExecState σ) :
    PResult Bool × ExecState σ :=
  execStep conn st "sudo apt update" (fun _ s1 =>
  execStep conn s1 certbotInstallCmd (fun _ s2 =>
    let s3 := createRenewalHook conn s2
    execStep conn s3 certbotVersionCmd (fun result s4 =>
      if result.exitCode == 0 then (PResult.resolved true, s4)
      else (PResult.rejected "Certbot installation verification failed", s4))))

/-- The certificate acquisition command. -/
def certonlyCmd (domain email : String) : String :=
  "sudo certbot certonly -d " ++ domain ++ " --nginx -n --email " ++ email ++
  " --agree-tos"

/-- `obtainSSLCertificate(conn, domain, email)`: runs certbot; non-zero exit
throws an error carrying the captured error output. -/
def obtainSSLCertificate {σ : Type} (conn : Conn σ) (domain email : String)
    (st : ExecState σ) : PResult Bool × ExecState σ :=
  execStep conn st (certonlyCmd domain email) (fun result s =>
    if result.exitCode == 0 then (PResult.resolved true, s)
    else
      (PResult.rejected ("Certificate obtainment failed: " ++ result.errorOutput),
       s))

/-- Installer Outcome of the certificate façade. -/
structure SSLResult where
  success : Bool
  domain : String
  email : String
  deriving Repr, DecidableEq

/-- `installLetsEncrypt(conn)`: guard on domain/email (absent values modelled
as `""`), then — first step — the domain-reachability test, then certbot
installation, then certificate acquisition. Rejections rethrow. -/
def installLetsEncrypt {σ : Type} (conn : Conn σ) (domain email now : String)
    (st : ExecState σ) : PResult SSLResult × ExecState σ :=
  if domain == "" || email == "" then
    (PResult.rejected "Domain and email are required", st)
  else
    match testDomainReachability conn domain now st with
    | (PResult.rejected m, s) => (PResult.rejected m, s)
    | (PResult.resolved _, s1) =>
      match installCertbot conn s1 with
      | (PResult.rejected m, s) => (PResult.rejected m, s)
      | (PResult.resolved _, s2) =>
        match obtainSSLCertificate conn domain email s2 with
        | (PResult.rejected m, s) => (PResult.rejected m, s)
        | (PResult.resolved _, s3) =>
            (PResult.resolved { success := true, domain := domain, email := email },
             s3)

end SimpleSSLInstaller

namespace StaticWebsiteInstaller

/-- Probe Result of the static-site installer's nginx check (the
`installed:false` returns carry no version). -/
structure SWCheckResult where
  installed : Bool
  version : Option String
  deriving Repr, DecidableEq

/-- Local configuration of the static-site installer: the target domain, the
ZIP archive path, and whether `fs.existsSync` finds the archive. -/
structure SWConfig where
  domain : String
  zipFilePath : String
  zipExists : Bool
  deriving Repr, DecidableEq

/-- The SFTP upload capability of the session (`conn.sftp` + write stream to
the given remote path): not a shell command, so it leaves the command trace
untouched. -/
def Upload (σ : Type) := σ → String → PResult Unit × σ

/-- `path.basename` for the slash-free and `dir/file` shapes the installer
feeds it (Node additionally strips a trailing slash, which cannot occur in a
ZIP file path). -/
def basename (p : String) : String := (jsSplitChar p (Char.ofNat 47)).getLastD p

def swCommandVCmd : String := "command -v nginx >/dev/null 2>&1"

def swVersionCmd : String := "nginx -v 2>&1 | head -1"

def swBinaryLsCmd : String :=
  "ls -la /usr/sbin/nginx /usr/bin/nginx /usr/local/bin/nginx /usr/local/sbin/nginx 2>/dev/null | head -1"

def swServiceCmd : String :=
  "systemctl is-active nginx 2>/dev/null || service nginx status 2>/dev/null || /etc/init.d/nginx status 2>/dev/null"

/-- Final fallback of the static-site nginx check: is the service running? -/
def swServiceFallback {σ : Type} (conn : Conn σ) (st : ExecState σ) :
    SWCheckResult × ExecState σ :=
  match executeCommand conn st swServiceCmd with
  | (PResult.rejected _, s) => ({ installed := false, version := none }, s)
  | (PResult.resolved r, s) =>
      if r.exitCode == 0 then
        ({ installed := true, version := some "Unknown (service running)" }, s)
      else ({ installed := false, version := none }, s)

/-- Second fallback of the static-site nginx check: list well-known binary
locations, then ask the last whitespace-split token of the listing
(`output.split(' ').pop()`) for its version. -/
def swBinaryFallback {σ : Type} (conn : Conn σ) (st : ExecState σ) :
    SWCheckResult × ExecState σ :=
  match executeCommand conn st swBinaryLsCmd with
  | (PResult.rejected _, s) => ({ installed := false, version := none }, s)
  | (PResult.resolved b, s) =>
      if b.exitCode == 0 && jsTrim b.output != "" then
        let binaryPath := (jsSplitChar b.output (Char.ofNat 32)).getLastD ""
        match executeCommand conn s (binaryPath ++ " -v 2>&1 | head -1") with
        | (PResult.rejected _, s') => ({ installed := false, version := none }, s')
        | (PResult.resolved v, s') =>
            if v.exitCode == 0 then
              ({ installed := true, version := some (jsTrim v.output) }, s')
            else swServiceFallback conn s'
      else swServiceFallback conn s

/-- `StaticWebsiteInstaller.checkNginxInstalled(conn)` (lines 673-747): the
`command -v` probe with version lookup, then the binary-location fallback,
then the service fallback; one outer catch coerces any rejection to
`installed:false`. -/
def checkNginxInstalled {σ : Type} (conn : Conn σ) (st : ExecState σ) :
    SWCheckResult × ExecState σ :=
  match executeCommand conn st swCommandVCmd with
  | (PResult.rejected _, s) => ({ installed := false, version := none }, s)
  | (PResult.resolved c1, s1) =>
      if c1.exitCode == 0 then
        match executeCommand conn s1 swVersionCmd with
        | (PResult.rejected _, s) => ({ installed := false, version := none }, s)
        | (PResult.resolved v1, s2) =>
            if v1.exitCode == 0 then
              ({ installed := true, version := some (jsTrim v1.output) }, s2)
            else swBinaryFallback conn s2
      else swBinaryFallback conn s1

def sslCheckCmd (domain : String) : String :=
  "sudo ls /etc/letsencrypt/live/" ++ domain ++
  "/fullchain.pem >/dev/null 2>&1 && echo \"SSL exists\" || echo \"SSL not found\""

/-- `checkSSLStatus(conn, domain)`: does the output mention `SSL exists`?
A rejection is coerced to no-SSL. -/
def checkSSLStatus {σ : Type} (conn : Conn σ) (domain : String)
    (st : ExecState σ) : Bool × ExecState σ :=
  match executeCommand conn st (sslCheckCmd domain) with
  | (PResult.rejected _, s) => (false, s)
  | (PResult.resolved r, s) => (jsIncludes r.output "SSL exists", s)

def rmConfCmd (domain : String) : String :=
  "sudo rm -f /etc/nginx/conf.d/" ++ domain ++ ".conf"

def rmWebrootCmd (domain : String) : String :=
  "sudo rm -rf /opt/webroot/" ++ domain

/-- `cleanExistingInstallation(conn)`: removes the previous nginx config and
webroot. The guard throws when no domain is set; the catch swallows
rejections (a rejection of the first removal skips the second). -/
def cleanExistingInstallation {σ : Type} (conn : Conn σ) (domain : String)
    (st : ExecState σ) : PResult Unit × ExecState σ :=
  if domain == "" then
    (PResult.rejected "Domain is required for cleaning existing installation", st)
  else
    match executeCommand conn st (rmConfCmd domain) with
    | (PResult.rejected _, s) => (PResult.resolved (), s)
    | (PResult.resolved _, s1) =>
        (PResult.resolved (), (executeCommand conn s1 (rmWebrootCmd domain)).2)

/-- `uploadZipFile(conn)`: guard on the archive path and its existence, then
SFTP the archive to `/tmp/<basename>`; resolves with the remote path. -/
def uploadZipFile {σ : Type} (upload : Upload σ) (cfg : SWConfig)
    (st : ExecState σ) : PResult String × ExecState σ :=
  if cfg.zipFilePath == "" || !cfg.zipExists then
    (PResult.rejected "ZIP file path is invalid or file does not exist", st)
  else
    let remotePath := "/tmp/" ++ basename cfg.zipFilePath
    match upload st.host remotePath with
    | (PResult.rejected m, h) => (PResult.rejected m, ⟨h, st.trace⟩)
    | (PResult.resolved _, h) => (PResult.resolved remotePath, ⟨h, st.trace⟩)

/-- `extractZipFile(conn, remoteZipPath)`: prepares the webroot, extracts the
archive, sets ownership and permissions for the `nginx` web user, runs a
series of diagnostic listings (results only logged), tests the nginx
configuration — reloading it only when the test exits zero (reload result
only logged) — inspects the error log, and removes the uploaded archive.
Every step is awaited without an exit-code gate except the reload gate; the
catch rethrows rejections. -/
def extractZipFile {σ : Type} (conn : Conn σ) (domain remoteZipPath : String)
    (st : ExecState σ) : PResult Unit × ExecState σ :=
  if domain == "" then (PResult.rejected "Domain is required for extraction", st)
  else
    execStep conn st "sudo mkdir -p /opt/webroot" (fun _ s1 =>
    execStep conn s1 "sudo chmod 755 /opt/webroot" (fun _ s2 =>
    execStep conn s2 ("sudo mkdir -p /opt/webroot/" ++ domain) (fun _ s3 =>
    execStep conn s3 ("sudo unzip -o " ++ remoteZipPath ++ " -d /opt/webroot/" ++ domain)
      (fun _ s4 =>
    execStep conn s4 ("sudo chown -R nginx:nginx /opt/webroot/" ++ domain) (fun _ s5 =>
    execStep conn s5 ("sudo chmod -R 755 /opt/webroot/" ++ domain) (fun _ s6 =>
    execStep conn s6 ("sudo ls -la /opt/webroot/" ++ domain ++ "/") (fun _ s7 =>
    execStep conn s7 ("sudo ls -la /opt/webroot/" ++ domain ++
        "/index.html 2>/dev/null || echo \"Index file not found\"") (fun _ s8 =>
    execStep conn s8 ("sudo -u nginx ls /opt/webroot/" ++ domain ++
        "/index.html 2>/dev/null || echo \"Web server user cannot access index file\"")
      (fun _ s9 =>
    execStep conn s9 "command -v getenforce >/dev/null 2>&1 && getenforce || echo \"no-selinux\""
      (fun _ s10 =>
    execStep conn s10 "sudo find /etc/nginx -name \"*.conf\" -type f | head -10"
      (fun _ s11 =>
    execStep conn s11 ("sudo ls -la /etc/nginx/conf.d/" ++ domain ++ ".conf") (fun _ s12 =>
    execStep conn s12 "sudo grep -n \"conf.d\" /etc/nginx/nginx.conf || echo \"conf.d not included in nginx.conf\""
      (fun _ s13 =>
    execStep conn s13 "sudo nginx -t 2>&1" (fun testConfig s14 =>
      let afterReload : PResult Unit × ExecState σ :=
        if testConfig.exitCode == 0 then
          execStep conn s14 "sudo systemctl reload nginx 2>&1 || sudo service nginx reload 2>&1"
            (fun _ s => (PResult.resolved (), s))
        else (PResult.resolved (), s14)
      match afterReload with
      | (PResult.rejected m, s) => (PResult.rejected m, s)
      | (PResult.resolved _, s15) =>
        execStep conn s15 "sudo tail -10 /var/log/nginx/error.log 2>/dev/null || echo \"No nginx error logs found\""
          (fun _ s16 =>
        execStep conn s16 ("sudo rm -f " ++ remoteZipPath) (fun _ s17 =>
          (PResult.resolved (), s17)))))))))))))))))

/-- The gzip-compression / security-header / static-file section shared by
the HTTP server block and the SSL server block of the generated config. -/
def gzipSecurityPart : String :=
  "\n\n    # Enable gzip compression\n    gzip on;\n    gzip_vary on;\n    gzip_min_length 1024;\n    gzip_proxied any;\n    gzip_comp_level 6;\n    gzip_types\n        text/plain\n        text/css\n        text/xml\n        text/javascript\n        application/javascript\n        application/xml+rss\n        application/json;\n\n    # Security headers\n    add_header X-Frame-Options \"SAMEORIGIN\" always;\n    add_header X-XSS-Protection \"1; mode=block\" always;\n    add_header X-Content-Type-Options \"nosniff\" always;\n    add_header Referrer-Policy \"no-referrer-when-downgrade\" always;\n    add_header Content-Security-Policy \"default-src \x27self\x27 http: https: data: blob: \x27unsafe-inline\x27\" always;\n\n    # Handle static files\n    location / \x7b\n        try_files $uri $uri/ =404;\n    \x7d"

/-- The HTTP-to-HTTPS redirect section used instead of `gzipSecurityPart`
when a certificate exists. -/
def sslRedirectPart : String :=
  "\n\n    # Redirect all HTTP traffic to HTTPS (except ACME challenges)\n    location / \x7b\n        return 301 https://$server_name$request_uri;\n    \x7d"

/-- The ACME-challenge location plus the closing brace of a server block. -/
def acmePart : String :=
  "\n\n    # ACME challenge for SSL renewal (always keep this)\n    location /.well-known/acme-challenge/ \x7b\n        alias /usr/share/nginx/html/.well-known/acme-challenge/;\n        try_files $uri =404;\n    \x7d\n\x7d"

/-- The additional `listen 443` server block appended when SSL is enabled. -/
def sslServerBlock (domain : String) : String :=
  "\n\nserver \x7b\n    listen 443 ssl http2;\n    server_name " ++ domain ++
  ";\n\n    root /opt/webroot/" ++ domain ++
  ";\n    index index.html index.htm;\n\n    # SSL configuration\n    ssl_certificate /etc/letsencrypt/live/" ++
  domain ++ "/fullchain.pem;\n    ssl_certificate_key /etc/letsencrypt/live/" ++
  domain ++
  "/privkey.pem;\n\n    # SSL security settings\n    ssl_protocols TLSv1.2 TLSv1.3;\n    ssl_ciphers ECDHE-RSA-AES128-GCM-SHA256:ECDHE-RSA-AES256-GCM-SHA384:ECDHE-RSA-AES128-SHA256:ECDHE-RSA-AES256-SHA384;\n    ssl_prefer_server_ciphers off;" ++
  gzipSecurityPart ++ acmePart

/-- The `nginxConfig` template literal of `createNginxConfig`, as a function
of the domain and the SSL flag. -/
def nginxConfigText (domain : String) (hasSSL : Bool) : String :=
  "# Static website configuration for " ++ domain ++ "\nserver \x7b\n    listen 80;\n    server_name " ++
  domain ++ ";\n\n    root /opt/webroot/" ++ domain ++
  ";\n    index index.html index.htm;" ++
  (if hasSSL then sslRedirectPart else gzipSecurityPart) ++ acmePart ++
  (if hasSSL then sslServerBlock domain else "")

def catConfigCmd (domain : String) (hasSSL : Bool) : String :=
  "cat > /tmp/" ++ domain ++ ".conf << \x27EOF\x27\n" ++
  nginxConfigText domain hasSSL ++ "\nEOF"

def mvConfigCmd (domain : String) : String :=
  "sudo mv /tmp/" ++ domain ++ ".conf /etc/nginx/conf.d/" ++ domain ++
  ".conf && sudo chown root:root /etc/nginx/conf.d/" ++ domain ++
  ".conf && sudo chmod 644 /etc/nginx/conf.d/" ++ domain ++ ".conf"

/-- `createNginxConfig(conn, hasSSL)`: writes the config to `/tmp`, moves it
into `conf.d` with root ownership, tests the configuration — a non-zero
`sudo nginx -t` throws — then reloads nginx. -/
def createNginxConfig {σ : Type} (conn : Conn σ) (domain : String)
    (hasSSL : Bool) (st : ExecState σ) : PResult Unit × ExecState σ :=
  if domain == "" then
    (PResult.rejected "Domain is required for nginx configuration", st)
  else
    execStep conn st (catConfigCmd domain hasSSL) (fun _ s1 =>
    execStep conn s1 (mvConfigCmd domain) (fun _ s2 =>
    execStep conn s2 "sudo nginx -t" (fun testResult s3 =>
      if testResult.exitCode != 0 then
        (PResult.rejected "Nginx configuration test failed", s3)
      else
        execStep conn s3 "sudo systemctl reload nginx" (fun _ s4 =>
          (PResult.resolved (), s4)))))

/-- Installer Outcome of the static-site façade. -/
structure StaticWebsiteResult where
  success : Bool
  domain : String
  webroot : String
  nginxConfig : String
  hasSSL : Bool
  deriving Repr, DecidableEq

/-- `installStaticWebsite(conn)` (lines 1181-1239): guards on domain and
archive path, probes for nginx (failing when absent), probes for an SSL
certificate, then unconditionally cleans any existing installation, uploads
and extracts the archive and writes the nginx configuration — the mutating
steps run on every invocation; there is no installed-already skip path. -/
def installStaticWebsite {σ : Type} (conn : Conn σ) (upload : Upload σ)
    (cfg : SWConfig) (st : ExecState σ) :
    PResult StaticWebsiteResult × ExecState σ :=
  if cfg.domain == "" || cfg.zipFilePath == "" then
    (PResult.rejected "Domain and ZIP file path are required", st)
  else
    match checkNginxInstalled conn st with
    | (nginxCheck, st1) =>
      if !nginxCheck.installed then
        (PResult.rejected "Nginx is not installed. Please install Nginx first.", st1)
      else
        match checkSSLStatus conn cfg.domain st1 with
        | (hasSSL, st2) =>
          match cleanExistingInstallation conn cfg.domain st2 with
          | (PResult.rejected m, s) => (PResult.rejected m, s)
          | (PResult.resolved _, st3) =>
            match uploadZipFile upload cfg st3 with
            | (PResult.rejected m, s) => (PResult.rejected m, s)
            | (PResult.resolved remoteZipPath, st4) =>
              match extractZipFile conn cfg.domain remoteZipPath st4 with
              | (PResult.rejected m, s) => (PResult.rejected m, s)
              | (PResult.resolved _, st5) =>
                match createNginxConfig conn cfg.domain hasSSL st5 with
                | (PResult.rejected m, s) => (PResult.rejected m, s)
                | (PResult.resolved _, st6) =>
                    (PResult.resolved
                      { success := true, domain := cfg.domain,
                        webroot := "/opt/webroot/" ++ cfg.domain,
                        nginxConfig := "/etc/nginx/conf.d/" ++ cfg.domain ++ ".conf",
                        hasSSL := hasSSL }, st6)

end StaticWebsiteInstaller

namespace AWSInstanceCreator

/-- `maxAttempts` of `waitForInstanceReady` (5 minutes at 5s per poll). -/
def maxAttempts : Nat := 60

/-- The `while (!instanceRunning && attempts < maxAttempts)` loop body: the
fake cloud API maps the poll index to the reported
`(instance.State.Name, instance.PublicIpAddress)` pair; a `running` report
captures the address and the number of polls performed (`attempts + 1`);
otherwise sleep and increment `attempts`. `fuel = maxAttempts - attempts`
bounds the recursion exactly as the loop guard does. -/
def waitAux (api : Nat → String × String) :
    Nat → Nat → Option (String × Nat)
  | _, 0 => none
  | attempts, fuel + 1 =>
      let polled := api attempts
      if polled.1 == "running" then some (polled.2, attempts + 1)
      else waitAux api (attempts + 1) fuel

/-- `waitForInstanceReady()`: polls `DescribeInstances` until the state is
`running`, at most `maxAttempts` times, then throws the timeout error. The
captured `this.instanceIp` is modelled as the returned value, paired with the
number of polls performed. -/
def waitForInstanceReady (api : Nat → String × String) :
    Except String (String × Nat) :=
  match waitAux api 0 maxAttempts with
  | some r => Except.ok r
  | none => Except.error "Timeout waiting for instance to become ready"

end AWSInstanceCreator

/-! Analysis helpers and concrete sessions used by the theorems below. -/

/-- `t` was reached from `s` by dispatching zero or more further commands. -/
def TraceExtends {σ : Type} (s t : ExecState σ) : Prop :=
  ∃ l, t.trace = s.trace ++ l

/-- A host on which every probe command reports success with output
`installed` (every basic tool present; nginx found at the first binary
path). -/
def fullHostConn : Conn Unit :=
  fun _ _ => (ExecOutcome.ok ⟨"installed", "", 0⟩, ())

/-- A session whose transport fails on every dispatch. -/
def transportErrConn : Conn Unit :=
  fun _ _ => (ExecOutcome.err "channel died", ())

/-- A host on which every command completes with exit status 1 and empty
output. -/
def allFailConn : Conn Unit :=
  fun _ _ => (ExecOutcome.ok ⟨"", "", 1⟩, ())

/-- A host on which every command completes with exit status 0 and empty
output. -/
def allOkConn : Conn Unit :=
  fun _ _ => (ExecOutcome.ok ⟨"", "", 0⟩, ())

/-- A host delivering a command that completed with exit status 42. -/
def exit42Conn : Conn Unit :=
  fun _ _ => (ExecOutcome.ok ⟨"", "boom", 42⟩, ())

/-- A host with no tools installed whose `sudo apt update` completes with
exit status 100 (and error output), while every other command completes. -/
def aptUpdateFailsConn : Conn Unit :=
  fun h cmd =>
    if cmd == "sudo apt update" then
      (ExecOutcome.ok ⟨"", "E: Some index files failed to download.", 100⟩, h)
    else (ExecOutcome.ok ⟨"", "", 1⟩, h)

/-- A fresh host (state `false`) on which `sudo apt install -y nginx` flips
the state, after which `/usr/sbin/nginx -v 2>&1` reports a version; the
`sudo systemctl start nginx` command always fails with exit status 1. -/
def startFailsConn : Conn Bool :=
  fun h cmd =>
    if cmd == NginxInstaller.aptInstallNginxCmd then (ExecOutcome.ok ⟨"", "", 0⟩, true)
    else if cmd == "/usr/sbin/nginx -v 2>&1" then
      (if h then ExecOutcome.ok ⟨"", "nginx version: nginx/1.29.0", 0⟩
       else ExecOutcome.ok ⟨"", "", 1⟩, h)
    else if cmd == NginxInstaller.startNginxCmd then
      (ExecOutcome.ok ⟨"", "Job for nginx.service failed.", 1⟩, h)
    else (ExecOutcome.ok ⟨"", "", 1⟩, h)

/-- A host on which only `systemctl is-enabled nginx || systemctl status
nginx --no-pager -l` (the post-install verification's service fallback) and
the mutating sequencer steps exit zero; every detection command used by the
idempotency probe exits non-zero. -/
def verifyOnlyConn : Conn Unit :=
  fun h cmd =>
    if cmd == NginxInstaller.verifyServiceCmd then (ExecOutcome.ok ⟨"", "", 0⟩, h)
    else if cmd == NginxInstaller.aptUpdateCmd || cmd == NginxInstaller.prereqCmd
         || cmd == NginxInstaller.keyImportCmd || cmd == NginxInstaller.mkdirGnupgCmd
         || cmd == NginxInstaller.gpgVerifyCmd || cmd == NginxInstaller.addRepoCmd
         || cmd == NginxInstaller.pinningCmd || cmd == NginxInstaller.aptInstallNginxCmd
      then (ExecOutcome.ok ⟨"", "", 0⟩, h)
    else (ExecOutcome.ok ⟨"", "", 1⟩, h)

/-- An SFTP upload that always succeeds. -/
def okUpload : StaticWebsiteInstaller.Upload Unit :=
  fun h _ => (PResult.resolved (), h)

/-- The static-site configuration used by the idempotence counterexample. -/
def swExampleCfg : StaticWebsiteInstaller.SWConfig :=
  { domain := "example.com", zipFilePath := "site.zip", zipExists := true }

/-- A fake cloud API reporting `pending` three times, then `running`. -/
def pendingThenRunningApi : Nat → String × String :=
  fun i => if i < 3 then ("pending", "") else ("running", "3.73.112.98")

/-- A fake cloud API that never reports `running`. -/
def neverRunningApi : Nat → String × String :=
  fun _ => ("pending", "")

/-- A host where nginx answers at the first well-known binary path. -/
def pathsPositiveConn : Conn Unit :=
  fun h cmd =>
    if cmd == "/usr/sbin/nginx -v 2>&1" then
      (ExecOutcome.ok ⟨"nginx version: nginx/1.29.0", "", 0⟩, h)
    else (ExecOutcome.ok ⟨"", "", 1⟩, h)

/-- A host where no well-known binary path answers but `command -v nginx`
resolves to a custom prefix whose binary reports a version. -/
def cmdVPositiveConn : Conn Unit :=
  fun h cmd =>
    if cmd == "command -v nginx" then
      (ExecOutcome.ok ⟨"/opt/nginx/sbin/nginx\n", "", 0⟩, h)
    else if cmd == "/opt/nginx/sbin/nginx -v 2>&1" then
      (ExecOutcome.ok ⟨"nginx version: nginx/1.29.0", "", 0⟩, h)
    else (ExecOutcome.ok ⟨"", "", 1⟩, h)

/-- A host where only the dpkg record knows about nginx. -/
def dpkgPositiveConn : Conn Unit :=
  fun h cmd =>
    if cmd == NginxInstaller.dpkgCmd then
      (ExecOutcome.ok
        ⟨"ii  nginx  1.29.0-1~bookworm  amd64  high performance web server\n", "", 0⟩, h)
    else (ExecOutcome.ok ⟨"", "", 1⟩, h)

/-- A host where only the systemd unit list mentions nginx. -/
def servicePositiveConn : Conn Unit :=
  fun h cmd =>
    if cmd == NginxInstaller.listUnitsCmd then (ExecOutcome.ok ⟨"", "", 0⟩, h)
    else (ExecOutcome.ok ⟨"", "", 1⟩, h)

/-- A fresh host (state `false`) with no tools; the `sudo apt install` step
flips the state, after which every probe answers `installed`; `sudo apt
update` always exits 1 (its exit code is ignored by the sequencer). -/
def toolsFlipConn : Conn Bool :=
  fun h cmd =>
    if cmd == "sudo apt install -y git htop ripgrep build-essential curl wget vim-nox mc unzip"
      then (ExecOutcome.ok ⟨"", "", 0⟩, true)
    else if h then (ExecOutcome.ok ⟨"installed", "", 0⟩, h)
    else (ExecOutcome.ok ⟨"", "", 1⟩, h)

/-! Base lemmas about the command executor. -/

/-- Dispatching one command appends exactly that command to the trace. -/
theorem executeCommand_trace {σ : Type} (conn : Conn σ) (st : ExecState σ)
    (cmd : String) : (executeCommand conn st cmd).2.trace = st.trace ++ [cmd] := by
  unfold executeCommand
  rcases hco : conn st.host cmd with ⟨o, h⟩
  cases o <;> simp [hco]

/-- Dispatching one command extends the trace. -/
theorem executeCommand_extends {σ : Type} (conn : Conn σ) (st : ExecState σ)
    (cmd : String) : TraceExtends st (executeCommand conn st cmd).2 :=
  ⟨[cmd], executeCommand_trace conn st cmd⟩

theorem traceExtends_refl {σ : Type} (s : ExecState σ) : TraceExtends s s :=
  ⟨[], by simp⟩

theorem traceExtends_trans {σ : Type} {s t u : ExecState σ}
    (h1 : TraceExtends s t) (h2 : TraceExtends t u) : TraceExtends s u := by
  obtain ⟨l1, e1⟩ := h1
  obtain ⟨l2, e2⟩ := h2
  exact ⟨l1 ++ l2, by rw [e2, e1, List.append_assoc]⟩

theorem mem_of_traceExtends {σ : Type} {s t : ExecState σ} {c : String}
    (hm : c ∈ s.trace) (h : TraceExtends s t) : c ∈ t.trace := by
  obtain ⟨l, e⟩ := h
  rw [e]
  exact List.mem_append_left _ hm

/-- Strings whose final characters differ are distinct. -/
theorem str_ne_of_last {a b : String}
    (h : a.data.getLast? ≠ b.data.getLast?) : a ≠ b :=
  fun e => h (by rw [e])

/-- The final character of `a ++ b` is that of a non-empty `b`. -/
theorem str_append_last (a b : String) (hb : b.data ≠ []) :
    (a ++ b).data.getLast? = b.data.getLast? := by
  rw [String.data_append]
  exact List.getLast?_append_of_ne_nil _ hb

/-! Claim C3: the command executor never rejects for a completed command. -/

/-- C3: `executeCommand` resolves with `{output, errorOutput, exitCode}` for
every command the channel completes — in particular for a non-zero exit —
and rejects exactly when the command could not be dispatched (transport-level
failure). -/
theorem executeCommand_total_classification {σ : Type} (conn : Conn σ)
    (st : ExecState σ) (cmd : String) :
    (∀ r, (conn st.host cmd).1 = ExecOutcome.ok r →
      (executeCommand conn st cmd).1 = PResult.resolved r) ∧
    (∀ m, (conn st.host cmd).1 = ExecOutcome.err m →
      (executeCommand conn st cmd).1 = PResult.rejected m) ∧
    (∀ m, (executeCommand conn st cmd).1 = PResult.rejected m →
      (conn st.host cmd).1 = ExecOutcome.err m) := by
  unfold executeCommand
  rcases hco : conn st.host cmd with ⟨o, h⟩
  refine ⟨?_, ?_, ?_⟩
  · intro r hr
    simp only [hco] at hr ⊢
    subst hr
    simp only []
    split <;> rfl
  · intro m hm
    simp only [hco] at hm ⊢
    subst hm
    rfl
  · intro m hm
    simp only [hco] at hm ⊢
    cases o with
    | ok r =>
        simp only [] at hm
        split at hm <;> simp at hm
    | err m' =>
        simp only [] at hm
        cases hm
        rfl

/-- Witness for C3 at a command that completed with exit status 42: the call
resolves with the full command result instead of rejecting. -/
theorem executeCommand_total_classification_witness :
    (exit42Conn ((⟨(), []⟩ : ExecState Unit)).host "false").1 =
      ExecOutcome.ok ⟨"", "boom", 42⟩ ∧
    (executeCommand exit42Conn ⟨(), []⟩ "false").1 =
      PResult.resolved ⟨"", "boom", 42⟩ :=
  ⟨by decide,
   (executeCommand_total_classification exit42Conn ⟨(), []⟩ "false").1
     ⟨"", "boom", 42⟩ (by decide)⟩

/-! Claim C1: a positive probe short-circuits the whole sequence. -/

/-- When the probe reports every tool installed, `installBasicTools` returns
the probe result and the probe's session state unchanged — the final trace is
the probe's trace, so no further command of any kind is dispatched. -/
theorem installBasicTools_skip {σ : Type} (conn : Conn σ) (st : ExecState σ)
    (h : (BasicToolsInstaller.checkBasicToolsInstalled conn st).1.allInstalled = true) :
    BasicToolsInstaller.installBasicTools conn st =
      (PResult.resolved (BasicToolsInstaller.checkBasicToolsInstalled conn st).1,
       (BasicToolsInstaller.checkBasicToolsInstalled conn st).2) := by
  unfold BasicToolsInstaller.installBasicTools
  rcases hc : BasicToolsInstaller.checkBasicToolsInstalled conn st with ⟨c, s⟩
  rw [hc] at h
  simp only [] at h
  simp [h]

/-- When the probe reports nginx installed, `installNginx` returns the probe
result and the probe's session state unchanged. -/
theorem installNginx_skip {σ : Type} (conn : Conn σ) (st : ExecState σ)
    (h : (NginxInstaller.checkNginxInstalled conn st).1.installed = true) :
    NginxInstaller.installNginx conn st =
      (PResult.resolved (NginxInstaller.checkNginxInstalled conn st).1,
       (NginxInstaller.checkNginxInstalled conn st).2) := by
  unfold NginxInstaller.installNginx
  rcases hc : NginxInstaller.checkNginxInstalled conn st with ⟨c, s⟩
  rw [hc] at h
  simp only [] at h
  simp [h]

/-- C1: for both probe-gated façades, a probe reporting the target already
installed makes the façade return the probe result with the probe's session
state: the final command trace equals the probe's own trace, so none of the
sequencer's mutating commands (apt update, apt install, repository
registration, service start) is ever dispatched. -/
theorem probe_installed_skips_sequence {σ : Type} (conn : Conn σ)
    (st : ExecState σ) :
    ((BasicToolsInstaller.checkBasicToolsInstalled conn st).1.allInstalled = true →
      BasicToolsInstaller.installBasicTools conn st =
        (PResult.resolved (BasicToolsInstaller.checkBasicToolsInstalled conn st).1,
         (BasicToolsInstaller.checkBasicToolsInstalled conn st).2)) ∧
    ((NginxInstaller.checkNginxInstalled conn st).1.installed = true →
      NginxInstaller.installNginx conn st =
        (PResult.resolved (NginxInstaller.checkNginxInstalled conn st).1,
         (NginxInstaller.checkNginxInstalled conn st).2)) :=
  ⟨installBasicTools_skip conn st, installNginx_skip conn st⟩

/-- Witness for C1 on a host where every probe answers `installed`: both
probes report installed and both façades return the probe result without
dispatching anything further. -/
theorem probe_installed_skips_sequence_witness :
    (BasicToolsInstaller.checkBasicToolsInstalled fullHostConn ⟨(), []⟩).1.allInstalled = true ∧
    (NginxInstaller.checkNginxInstalled fullHostConn ⟨(), []⟩).1.installed = true ∧
    BasicToolsInstaller.installBasicTools fullHostConn ⟨(), []⟩ =
      (PResult.resolved (BasicToolsInstaller.checkBasicToolsInstalled fullHostConn ⟨(), []⟩).1,
       (BasicToolsInstaller.checkBasicToolsInstalled fullHostConn ⟨(), []⟩).2) ∧
    NginxInstaller.installNginx fullHostConn ⟨(), []⟩ =
      (PResult.resolved (NginxInstaller.checkNginxInstalled fullHostConn ⟨(), []⟩).1,
       (NginxInstaller.checkNginxInstalled fullHostConn ⟨(), []⟩).2) :=
  ⟨by decide, by decide,
   (probe_installed_skips_sequence fullHostConn ⟨(), []⟩).1 (by decide),
   (probe_installed_skips_sequence fullHostConn ⟨(), []⟩).2 (by decide)⟩

/-! Claim C10: a verified fresh install always reports `running: true`. -/

/-- C10: on the fresh-install path (probe negative), whenever `installNginx`
resolves it returns `installed: true` and `running: true` — the returned
`running` flag does not depend on the outcome of the
`sudo systemctl start nginx` attempt, whose failure is only logged. -/
theorem installNginx_fresh_always_running {σ : Type} (conn : Conn σ)
    (st : ExecState σ) (r : NginxInstaller.NginxCheckResult)
    (hprobe : (NginxInstaller.checkNginxInstalled conn st).1.installed = false)
    (hres : (NginxInstaller.installNginx conn st).1 = PResult.resolved r) :
    r.installed = true ∧ r.running = true := by
  unfold NginxInstaller.installNginx at hres
  rcases hc : NginxInstaller.checkNginxInstalled conn st with ⟨c, s1⟩
  rw [hc] at hres hprobe
  simp only [] at hprobe hres
  rw [hprobe] at hres
  simp only [Bool.false_eq_true, if_false, execStep] at hres
  repeat' split at hres
  all_goals cases hres
  all_goals exact ⟨rfl, rfl⟩

/-- Witness for C10 on a fresh host whose `sudo systemctl start nginx`
command exits 1: the probe is negative, the start command fails, yet the
resolved result reports `installed: true` and `running: true`. -/
theorem installNginx_fresh_always_running_witness :
    (NginxInstaller.checkNginxInstalled startFailsConn ⟨false, []⟩).1.installed = false ∧
    (startFailsConn true NginxInstaller.startNginxCmd).1 =
      ExecOutcome.ok ⟨"", "Job for nginx.service failed.", 1⟩ ∧
    (NginxInstaller.installNginx startFailsConn ⟨false, []⟩).1 =
      PResult.resolved
        { installed := true, version := some "nginx version: nginx/1.29.0",
          running := true } ∧
    ({ installed := true, version := some "nginx version: nginx/1.29.0",
       running := true } : NginxInstaller.NginxCheckResult).installed = true ∧
    ({ installed := true, version := some "nginx version: nginx/1.29.0",
       running := true } : NginxInstaller.NginxCheckResult).running = true :=
  ⟨by decide, by decide, by decide,
   (installNginx_fresh_always_running startFailsConn ⟨false, []⟩
     { installed := true, version := some "nginx version: nginx/1.29.0",
       running := true } (by decide) (by decide)).1,
   (installNginx_fresh_always_running startFailsConn ⟨false, []⟩
     { installed := true, version := some "nginx version: nginx/1.29.0",
       running := true } (by decide) (by decide)).2⟩

/-! Claim C8: the bounded cloud-instance wait loop. -/

/-- If no poll in the next `fuel` attempts reports `running`, the wait loop
exhausts its fuel. -/
theorem waitAux_none (api : Nat → String × String) :
    ∀ (fuel start : Nat),
      (∀ i, i < fuel → (api (start + i)).1 ≠ "running") →
      AWSInstanceCreator.waitAux api start fuel = none := by
  intro fuel
  induction fuel with
  | zero => intro start _ ; rfl
  | succ n ih =>
      intro start h
      unfold AWSInstanceCreator.waitAux
      have h0 : (api start).1 ≠ "running" := by
        have := h 0 (Nat.succ_pos n)
        simpa using this
      simp only [beq_eq_false_iff_ne.mpr h0, Bool.false_eq_true, if_false]
      exact ih (start + 1) (fun i hi => by
        have := h (i + 1) (Nat.succ_lt_succ hi)
        simpa [Nat.add_assoc, Nat.add_comm 1 i] using this)

/-- If the first `running` report comes at relative poll index `k < fuel`,
the wait loop succeeds with that poll's address after `start + k + 1`
polls. -/
theorem waitAux_finds (api : Nat → String × String) :
    ∀ (fuel k start : Nat), k < fuel →
      (∀ i, i < k → (api (start + i)).1 ≠ "running") →
      (api (start + k)).1 = "running" →
      AWSInstanceCreator.waitAux api start fuel =
        some ((api (start + k)).2, start + k + 1) := by
  intro fuel
  induction fuel with
  | zero =>
      intro k start hk
      exact absurd hk (Nat.not_lt_zero k)
  | succ n ih =>
      intro k start hk hmiss hrun
      unfold AWSInstanceCreator.waitAux
      cases k with
      | zero =>
          simp only [Nat.add_zero] at hrun
          simp [hrun]
      | succ j =>
          have h0 : (api start).1 ≠ "running" := by
            have := hmiss 0 (Nat.succ_pos j)
            simpa using this
          simp only [beq_eq_false_iff_ne.mpr h0, Bool.false_eq_true, if_false]
          have := ih j (start + 1) (Nat.lt_of_succ_lt_succ hk)
            (fun i hi => by
              have := hmiss (i + 1) (Nat.succ_lt_succ hi)
              simpa [Nat.add_assoc, Nat.add_comm 1 i] using this)
            (by
              have : start + 1 + j = start + (j + 1) := by omega
              rw [this]
              exact hrun)
          rw [this]
          have e : start + 1 + j = start + (j + 1) := by omega
          rw [e]

/-- C8: if the describe-instance API reports a non-running state for the
first `N` polls and `running` on poll `N` (0-based) with `N` below the
60-attempt ceiling, `waitForInstanceReady` captures that poll's public IP
address after exactly `N + 1` polls; if `running` is never reported within
the 60-attempt ceiling, it aborts with the timeout error instead of waiting
indefinitely. -/
theorem waitForInstanceReady_spec (api : Nat → String × String) :
    (∀ N, N < 60 → (∀ i, i < N → (api i).1 ≠ "running") →
      (api N).1 = "running" →
      AWSInstanceCreator.waitForInstanceReady api =
        Except.ok ((api N).2, N + 1)) ∧
    ((∀ i, i < 60 → (api i).1 ≠ "running") →
      AWSInstanceCreator.waitForInstanceReady api =
        Except.error "Timeout waiting for instance to become ready") := by
  constructor
  · intro N hN hmiss hrun
    unfold AWSInstanceCreator.waitForInstanceReady
    have := waitAux_finds api AWSInstanceCreator.maxAttempts N 0 hN
      (fun i hi => by simpa using hmiss i hi) (by simpa using hrun)
    rw [this]
    simp
  · intro hmiss
    unfold AWSInstanceCreator.waitForInstanceReady
    have := waitAux_none api AWSInstanceCreator.maxAttempts 0
      (fun i hi => by simpa using hmiss i hi)
    rw [this]

/-- Witness for C8: a fake API reporting `pending` for 3 polls then
`running` yields the address after exactly 4 polls, and an API that never
reports `running` yields the timeout error. -/
theorem waitForInstanceReady_spec_witness :
    AWSInstanceCreator.waitForInstanceReady pendingThenRunningApi =
      Except.ok ("3.73.112.98", 4) ∧
    AWSInstanceCreator.waitForInstanceReady neverRunningApi =
      Except.error "Timeout waiting for instance to become ready" :=
  ⟨(waitForInstanceReady_spec pendingThenRunningApi).1 3 (by decide)
     (by decide) (by decide),
   (waitForInstanceReady_spec neverRunningApi).2 (fun i _ => by
     simp [neverRunningApi])⟩

/-! Trace-extension lemmas: every operation only appends to the trace. -/

theorem execStep_extends {σ α : Type} (conn : Conn σ) (st : ExecState σ)
    (cmd : String) (k : CmdResult → ExecState σ → PResult α × ExecState σ)
    (hk : ∀ r s, TraceExtends s (k r s).2) :
    TraceExtends st (execStep conn st cmd k).2 := by
  unfold execStep
  rcases he : executeCommand conn st cmd with ⟨p, s⟩
  have hs : TraceExtends st s := by
    have := executeCommand_extends conn st cmd
    rw [he] at this
    exact this
  cases p with
  | rejected m => exact hs
  | resolved r => exact traceExtends_trans hs (hk r s)

/-- The command of an `execStep` ends up on the final trace whenever the
continuation only appends. -/
theorem execStep_mem_cmd {σ α : Type} (conn : Conn σ) (st : ExecState σ)
    (cmd : String) (k : CmdResult → ExecState σ → PResult α × ExecState σ)
    (hk : ∀ r s, TraceExtends s (k r s).2) :
    cmd ∈ (execStep conn st cmd k).2.trace := by
  unfold execStep
  rcases he : executeCommand conn st cmd with ⟨p, s⟩
  have hst : s.trace = st.trace ++ [cmd] := by
    have := executeCommand_trace conn st cmd
    rw [he] at this
    exact this
  have hmem : cmd ∈ s.trace := by
    rw [hst]
    simp
  cases p with
  | rejected m => exact hmem
  | resolved r => exact mem_of_traceExtends hmem (hk r s)

theorem checkToolInstalled_extends {σ : Type} (conn : Conn σ)
    (st : ExecState σ) (tool : String) :
    TraceExtends st (BasicToolsInstaller.checkToolInstalled conn st tool).2 := by
  unfold BasicToolsInstaller.checkToolInstalled
  rcases he : executeCommand conn st (BasicToolsInstaller.checkCmd tool) with ⟨p, s⟩
  have hs : TraceExtends st s := by
    have := executeCommand_extends conn st (BasicToolsInstaller.checkCmd tool)
    rw [he] at this
    exact this
  cases p <;> exact hs

theorem checkToolsLoop_extends {σ : Type} (conn : Conn σ) :
    ∀ (l inst miss : List String) (st : ExecState σ),
      TraceExtends st (BasicToolsInstaller.checkToolsLoop conn l inst miss st).2.2 := by
  intro l
  induction l with
  | nil => intro inst miss st; exact traceExtends_refl st
  | cons tool rest ih =>
      intro inst miss st
      unfold BasicToolsInstaller.checkToolsLoop
      rcases hc : BasicToolsInstaller.checkToolInstalled conn st tool with ⟨b, s'⟩
      have hs : TraceExtends st s' := by
        have := checkToolInstalled_extends conn st tool
        rw [hc] at this
        exact this
      cases b <;> exact traceExtends_trans hs (ih _ _ s')

theorem checkBasicToolsInstalled_extends {σ : Type} (conn : Conn σ)
    (st : ExecState σ) :
    TraceExtends st (BasicToolsInstaller.checkBasicToolsInstalled conn st).2 := by
  unfold BasicToolsInstaller.checkBasicToolsInstalled
  rcases hl : BasicToolsInstaller.checkToolsLoop conn BasicToolsInstaller.tools [] [] st
    with ⟨inst, miss, s'⟩
  have := checkToolsLoop_extends conn BasicToolsInstaller.tools [] [] st
  rw [hl] at this
  exact this

theorem checkNginxPaths_extends {σ : Type} (conn : Conn σ) :
    ∀ (ps : List String) (v : String) (st : ExecState σ),
      TraceExtends st (NginxInstaller.checkNginxPaths conn ps v st).2 := by
  intro ps
  induction ps with
  | nil => intro v st; exact traceExtends_refl st
  | cons path rest ih =>
      intro v st
      unfold NginxInstaller.checkNginxPaths
      rcases he : executeCommand conn st (path ++ " -v 2>&1") with ⟨p, s⟩
      have hs : TraceExtends st s := by
        have := executeCommand_extends conn st (path ++ " -v 2>&1")
        rw [he] at this
        exact this
      cases p with
      | rejected m => exact traceExtends_trans hs (ih _ s)
      | resolved r =>
          simp only []
          split
          · split
            · exact traceExtends_trans hs (ih _ s)
            · exact hs
          · exact traceExtends_trans hs (ih _ s)

theorem checkNginxCommandV_extends {σ : Type} (conn : Conn σ) (v : String)
    (st : ExecState σ) :
    TraceExtends st (NginxInstaller.checkNginxCommandV conn v st).2 := by
  unfold NginxInstaller.checkNginxCommandV
  rcases he : executeCommand conn st "command -v nginx" with ⟨p, s⟩
  have hs : TraceExtends st s := by
    have := executeCommand_extends conn st "command -v nginx"
    rw [he] at this
    exact this
  cases p with
  | rejected m => exact hs
  | resolved which =>
      simp only []
      split
      · rcases he2 : executeCommand conn s (jsTrim which.output ++ " -v 2>&1")
          with ⟨p2, s2⟩
        have hss2 : TraceExtends st s2 := by
          have := executeCommand_extends conn s (jsTrim which.output ++ " -v 2>&1")
          rw [he2] at this
          exact traceExtends_trans hs this
        cases p2 with
        | rejected m => exact hss2
        | resolved r =>
            simp only []
            split
            · split
              · exact hss2
              · exact hss2
            · exact hss2
      · exact hs

theorem checkNginxDpkg_extends {σ : Type} (conn : Conn σ) (v : String)
    (st : ExecState σ) :
    TraceExtends st (NginxInstaller.checkNginxDpkg conn v st).2 := by
  unfold NginxInstaller.checkNginxDpkg
  rcases he : executeCommand conn st NginxInstaller.dpkgCmd with ⟨p, s⟩
  have hs : TraceExtends st s := by
    have := executeCommand_extends conn st NginxInstaller.dpkgCmd
    rw [he] at this
    exact this
  cases p with
  | rejected m => exact hs
  | resolved r =>
      simp only []
      split <;> exact hs

theorem checkNginxService_extends {σ : Type} (conn : Conn σ) (v : String)
    (st : ExecState σ) :
    TraceExtends st (NginxInstaller.checkNginxService conn v st).2 := by
  unfold NginxInstaller.checkNginxService
  rcases he : executeCommand conn st NginxInstaller.listUnitsCmd with ⟨p, s⟩
  have hs : TraceExtends st s := by
    have := executeCommand_extends conn st NginxInstaller.listUnitsCmd
    rw [he] at this
    exact this
  cases p with
  | rejected m => exact hs
  | resolved r =>
      simp only []
      split <;> exact hs

theorem checkNginxActive_extends {σ : Type} (conn : Conn σ)
    (st : ExecState σ) :
    TraceExtends st (NginxInstaller.checkNginxActive conn st).2 := by
  unfold NginxInstaller.checkNginxActive
  rcases he : executeCommand conn st NginxInstaller.isActiveCmd with ⟨p, s⟩
  have hs : TraceExtends st s := by
    have := executeCommand_extends conn st NginxInstaller.isActiveCmd
    rw [he] at this
    exact this
  cases p <;> exact hs

theorem verifyNginxInstall_extends {σ : Type} (conn : Conn σ)
    (st : ExecState σ) :
    TraceExtends st (NginxInstaller.verifyNginxInstall conn st).2 := by
  unfold NginxInstaller.verifyNginxInstall
  rcases h1 : NginxInstaller.checkNginxPaths conn NginxInstaller.nginxPaths "unknown" st
    with ⟨⟨i1, v1⟩, st1⟩
  have e1 : TraceExtends st st1 := by
    have := checkNginxPaths_extends conn NginxInstaller.nginxPaths "unknown" st
    rw [h1] at this
    exact this
  dsimp only
  rcases h2 : (if i1 = true then ((i1, v1), st1) else NginxInstaller.checkNginxCommandV conn v1 st1)
    with ⟨⟨i2, v2⟩, st2⟩
  have e2 : TraceExtends st st2 := by
    cases i1 with
    | true => rw [if_pos rfl] at h2; cases h2; exact e1
    | false =>
        rw [if_neg (by simp)] at h2
        have := checkNginxCommandV_extends conn v1 st1
        rw [h2] at this
        exact traceExtends_trans e1 this
  dsimp only
  rcases h3 : (if i2 = true then ((i2, v2), st2) else NginxInstaller.checkNginxDpkg conn v2 st2)
    with ⟨⟨i3, v3⟩, st3⟩
  have e3 : TraceExtends st st3 := by
    cases i2 with
    | true => rw [if_pos rfl] at h3; cases h3; exact e2
    | false =>
        rw [if_neg (by simp)] at h3
        have := checkNginxDpkg_extends conn v2 st2
        rw [h3] at this
        exact traceExtends_trans e2 this
  dsimp only
  cases i3 with
  | true => rw [if_pos rfl]; exact e3
  | false =>
      rw [if_neg (by simp)]
      rcases he : executeCommand conn st3 NginxInstaller.verifyServiceCmd with ⟨p, s4⟩
      have hs4 : TraceExtends st s4 := by
        have := executeCommand_extends conn st3 NginxInstaller.verifyServiceCmd
        rw [he] at this
        exact traceExtends_trans e3 this
      cases p with
      | rejected m => exact hs4
      | resolved r =>
          dsimp only
          split <;> exact hs4

/-! Claim C2: failure policy of the Installation Sequencer. -/

/-- Every element of the missing list produced by the tool loop came from
the accumulator or from the tool list. -/
theorem checkToolsLoop_missing_mem {σ : Type} (conn : Conn σ) :
    ∀ (l inst miss : List String) (st : ExecState σ) (x : String),
      x ∈ (BasicToolsInstaller.checkToolsLoop conn l inst miss st).2.1 →
      x ∈ miss ∨ x ∈ l := by
  intro l
  induction l with
  | nil =>
      intro inst miss st x hx
      exact Or.inl hx
  | cons tool rest ih =>
      intro inst miss st x hx
      unfold BasicToolsInstaller.checkToolsLoop at hx
      rcases hc : BasicToolsInstaller.checkToolInstalled conn st tool with ⟨b, s'⟩
      rw [hc] at hx
      cases b with
      | true =>
          rcases ih _ _ s' x hx with h | h
          · exact Or.inl h
          · exact Or.inr (List.mem_cons_of_mem tool h)
      | false =>
          rcases ih _ _ s' x hx with h | h
          · rcases List.mem_append.mp h with h' | h'
            · exact Or.inl h'
            · simp at h'
              exact Or.inr (h' ▸ List.mem_cons_self tool rest)
          · exact Or.inr (List.mem_cons_of_mem tool h)

/-- The package list the installer would join is never the empty string for
a non-empty missing list drawn from the tool table. -/
theorem jsJoin_packages_ne_empty (miss : List String) (hne : miss ≠ [])
    (hsub : ∀ x ∈ miss, x ∈ BasicToolsInstaller.tools) :
    (jsJoin " " (miss.map BasicToolsInstaller.getPackageName) == "") = false := by
  cases miss with
  | nil => exact absurd rfl hne
  | cons m rest =>
      cases rest with
      | nil =>
          have hm : m ∈ BasicToolsInstaller.tools := hsub m (List.mem_cons_self m [])
          fin_cases hm <;> decide
      | cons m2 rest2 =>
          show ((BasicToolsInstaller.getPackageName m ++ " " ++
            jsJoin " " (BasicToolsInstaller.getPackageName m2 :: rest2.map BasicToolsInstaller.getPackageName)) == "") = false
          apply beq_eq_false_iff_ne.mpr
          intro he
          have : (BasicToolsInstaller.getPackageName m ++ " " ++
              jsJoin " " (BasicToolsInstaller.getPackageName m2 :: rest2.map BasicToolsInstaller.getPackageName)).data =
              ("" : String).data := by rw [he]
          simp [String.data_append] at this

/-- An `allInstalled = false` probe has a non-empty missing list. -/
theorem missing_ne_nil_of_not_allInstalled {σ : Type} (conn : Conn σ)
    (st : ExecState σ)
    (h : (BasicToolsInstaller.checkBasicToolsInstalled conn st).1.allInstalled = false) :
    (BasicToolsInstaller.checkBasicToolsInstalled conn st).1.missing ≠ [] := by
  intro he
  unfold BasicToolsInstaller.checkBasicToolsInstalled at h he
  rcases hl : BasicToolsInstaller.checkToolsLoop conn BasicToolsInstaller.tools [] [] st
    with ⟨inst, miss, s'⟩
  rw [hl] at h he
  simp only [] at h he
  subst he
  simp at h

/-- The missing list of the probe is drawn from the tool table. -/
theorem probe_missing_subset {σ : Type} (conn : Conn σ) (st : ExecState σ) :
    ∀ x ∈ (BasicToolsInstaller.checkBasicToolsInstalled conn st).1.missing,
      x ∈ BasicToolsInstaller.tools := by
  intro x hx
  unfold BasicToolsInstaller.checkBasicToolsInstalled at hx
  rcases hl : BasicToolsInstaller.checkToolsLoop conn BasicToolsInstaller.tools [] [] st
    with ⟨inst, miss, s'⟩
  rw [hl] at hx
  simp only [] at hx
  have := checkToolsLoop_missing_mem conn BasicToolsInstaller.tools [] [] st x
  rw [hl] at this
  rcases this hx with h | h
  · exact absurd h (List.not_mem_nil x)
  · exact h

/-- Evaluation rule: a completed dispatch resolves with the command result. -/
theorem executeCommand_ok {σ : Type} (conn : Conn σ) (st : ExecState σ)
    (cmd : String) (r : CmdResult) (h2 : σ)
    (hco : conn st.host cmd = (ExecOutcome.ok r, h2)) :
    executeCommand conn st cmd = (PResult.resolved r, ⟨h2, st.trace ++ [cmd]⟩) := by
  unfold executeCommand
  rw [hco]
  dsimp only
  split <;> rfl

/-- Evaluation rule: a failed dispatch rejects with the transport error. -/
theorem executeCommand_err {σ : Type} (conn : Conn σ) (st : ExecState σ)
    (cmd : String) (m : String) (h2 : σ)
    (hco : conn st.host cmd = (ExecOutcome.err m, h2)) :
    executeCommand conn st cmd = (PResult.rejected m, ⟨h2, st.trace ++ [cmd]⟩) := by
  unfold executeCommand
  rw [hco]

/-- Evaluation rule: an awaited step whose dispatch completed continues with
the command result (whatever its exit code). -/
theorem execStep_ok {σ α : Type} (conn : Conn σ) (st : ExecState σ)
    (cmd : String) (k : CmdResult → ExecState σ → PResult α × ExecState σ)
    (r : CmdResult) (h2 : σ)
    (hco : conn st.host cmd = (ExecOutcome.ok r, h2)) :
    execStep conn st cmd k = k r ⟨h2, st.trace ++ [cmd]⟩ := by
  unfold execStep
  rw [executeCommand_ok conn st cmd r h2 hco]

/-- Evaluation rule: an awaited step whose dispatch failed rethrows. -/
theorem execStep_err {σ α : Type} (conn : Conn σ) (st : ExecState σ)
    (cmd : String) (k : CmdResult → ExecState σ → PResult α × ExecState σ)
    (m : String) (h2 : σ)
    (hco : conn st.host cmd = (ExecOutcome.err m, h2)) :
    execStep conn st cmd k = (PResult.rejected m, ⟨h2, st.trace ++ [cmd]⟩) := by
  unfold execStep
  rw [executeCommand_err conn st cmd m h2 hco]

/-- Counterexample to C2 as stated: on a host with no tools installed whose
`sudo apt update` step completes with exit status 100, the very next step
(`sudo apt install -y ...`) is still dispatched, and no error is surfaced —
the run resolves with the final probe's outcome instead of aborting with a
step-labelled error. -/
theorem step_nonzero_exit_not_aborting_cex :
    (aptUpdateFailsConn () "sudo apt update").1 =
      ExecOutcome.ok ⟨"", "E: Some index files failed to download.", 100⟩ ∧
    "sudo apt install -y git htop ripgrep build-essential curl wget vim-nox mc unzip" ∈
      (BasicToolsInstaller.installBasicTools aptUpdateFailsConn ⟨(), []⟩).2.trace ∧
    (BasicToolsInstaller.installBasicTools aptUpdateFailsConn ⟨(), []⟩).1 =
      PResult.resolved
        { installed := [], missing := BasicToolsInstaller.tools,
          allInstalled := false } :=
  ⟨by decide, by decide, by decide⟩

/-- C2 amended: a step that completes with a non-zero exit status never
aborts the remaining sequence and never surfaces a step-labelled error. On
any session whose every dispatch completes (with arbitrary exit codes), when
the probe reports not-installed: the basic-tools sequencer dispatches both of
its steps and resolves with the final re-probe outcome, and the nginx
sequencer dispatches all eight of its mutating steps, the only rejection it
can produce being the post-install verification failure (a message carrying
no step label and no captured step output). -/
theorem step_failure_policy_amended {σ : Type} (conn : Conn σ)
    (st : ExecState σ)
    (hok : ∀ h cmd, ∃ r h2, conn h cmd = (ExecOutcome.ok r, h2)) :
    ((BasicToolsInstaller.checkBasicToolsInstalled conn st).1.allInstalled = false →
      (∃ r, (BasicToolsInstaller.installBasicTools conn st).1 = PResult.resolved r) ∧
      ∀ c ∈ ["sudo apt update",
             "sudo apt install -y " ++ jsJoin " "
               ((BasicToolsInstaller.checkBasicToolsInstalled conn st).1.missing.map
                 BasicToolsInstaller.getPackageName)],
        c ∈ (BasicToolsInstaller.installBasicTools conn st).2.trace) ∧
    ((NginxInstaller.checkNginxInstalled conn st).1.installed = false →
      (∀ m, (NginxInstaller.installNginx conn st).1 = PResult.rejected m →
        m = "Installation verification failed - nginx command not found in PATH") ∧
      ∀ c ∈ [NginxInstaller.aptUpdateCmd, NginxInstaller.prereqCmd,
             NginxInstaller.keyImportCmd, NginxInstaller.mkdirGnupgCmd,
             NginxInstaller.gpgVerifyCmd, NginxInstaller.addRepoCmd,
             NginxInstaller.pinningCmd, NginxInstaller.aptInstallNginxCmd],
        c ∈ (NginxInstaller.installNginx conn st).2.trace) := by
  constructor
  · intro hall
    have hmiss_ne := missing_ne_nil_of_not_allInstalled conn st hall
    have hsub := probe_missing_subset conn st
    rcases hrun : BasicToolsInstaller.installBasicTools conn st with ⟨p, stf⟩
    unfold BasicToolsInstaller.installBasicTools at hrun
    rcases hc : BasicToolsInstaller.checkBasicToolsInstalled conn st with ⟨cres, s1⟩
    rw [hc] at hrun hall hmiss_ne hsub
    simp only [] at hrun hall hmiss_ne hsub
    dsimp only
    simp only [hall, Bool.false_eq_true, if_false] at hrun
    obtain ⟨r1, h1, hco1⟩ := hok s1.host "sudo apt update"
    rw [execStep_ok conn s1 _ _ r1 h1 hco1] at hrun
    try dsimp only at hrun
    have hne := jsJoin_packages_ne_empty cres.missing hmiss_ne hsub
    rw [if_neg (by simp [hne])] at hrun
    obtain ⟨r2, h2, hco2⟩ := hok h1
      ("sudo apt install -y " ++ jsJoin " " (cres.missing.map BasicToolsInstaller.getPackageName))
    rw [execStep_ok conn ⟨h1, s1.trace ++ ["sudo apt update"]⟩ _ _ r2 h2 hco2] at hrun
    try dsimp only at hrun
    rcases hf : BasicToolsInstaller.checkBasicToolsInstalled conn
        ⟨h2, s1.trace ++ ["sudo apt update"] ++
          ["sudo apt install -y " ++ jsJoin " " (cres.missing.map BasicToolsInstaller.getPackageName)]⟩
      with ⟨fc, st4⟩
    rw [hf] at hrun
    simp only [] at hrun
    have hext : TraceExtends
        (⟨h2, s1.trace ++ ["sudo apt update"] ++
          ["sudo apt install -y " ++ jsJoin " " (cres.missing.map BasicToolsInstaller.getPackageName)]⟩ :
          ExecState σ) st4 := by
      have hx := checkBasicToolsInstalled_extends conn
        ⟨h2, s1.trace ++ ["sudo apt update"] ++
          ["sudo apt install -y " ++ jsJoin " " (cres.missing.map BasicToolsInstaller.getPackageName)]⟩
      rw [hf] at hx
      exact hx
    split at hrun
    · cases hrun
      refine ⟨⟨_, rfl⟩, ?_⟩
      intro x hx
      simp only [List.mem_cons, List.not_mem_nil, or_false] at hx
      rcases hx with rfl | rfl
      · exact mem_of_traceExtends (by simp) hext
      · exact mem_of_traceExtends (by simp) hext
    · cases hrun
      refine ⟨⟨_, rfl⟩, ?_⟩
      intro x hx
      simp only [List.mem_cons, List.not_mem_nil, or_false] at hx
      rcases hx with rfl | rfl
      · exact mem_of_traceExtends (by simp) hext
      · exact mem_of_traceExtends (by simp) hext
  · intro hpr
    rcases hrun : NginxInstaller.installNginx conn st with ⟨p, stf⟩
    unfold NginxInstaller.installNginx at hrun
    rcases hc : NginxInstaller.checkNginxInstalled conn st with ⟨cres, s1⟩
    rw [hc] at hrun hpr
    simp only [] at hrun hpr
    simp only [hpr, Bool.false_eq_true, if_false] at hrun
    obtain ⟨r1, h1, hco1⟩ := hok s1.host NginxInstaller.aptUpdateCmd
    rw [execStep_ok conn s1 _ _ r1 h1 hco1] at hrun
    try dsimp only at hrun
    obtain ⟨r2, h2, hco2⟩ := hok h1 NginxInstaller.prereqCmd
    rw [execStep_ok conn ⟨h1, s1.trace ++ [NginxInstaller.aptUpdateCmd]⟩ _ _ r2 h2 hco2] at hrun
    try dsimp only at hrun
    obtain ⟨r3, h3, hco3⟩ := hok h2 NginxInstaller.keyImportCmd
    rw [execStep_ok conn ⟨h2, s1.trace ++ [NginxInstaller.aptUpdateCmd] ++
      [NginxInstaller.prereqCmd]⟩ _ _ r3 h3 hco3] at hrun
    try dsimp only at hrun
    obtain ⟨r4, h4, hco4⟩ := hok h3 NginxInstaller.mkdirGnupgCmd
    rw [executeCommand_ok conn ⟨h3, s1.trace ++ [NginxInstaller.aptUpdateCmd] ++
      [NginxInstaller.prereqCmd] ++ [NginxInstaller.keyImportCmd]⟩ _ r4 h4 hco4] at hrun
    try dsimp only at hrun
    obtain ⟨r5, h5, hco5⟩ := hok h4 NginxInstaller.gpgVerifyCmd
    rw [executeCommand_ok conn ⟨h4, s1.trace ++ [NginxInstaller.aptUpdateCmd] ++
      [NginxInstaller.prereqCmd] ++ [NginxInstaller.keyImportCmd] ++
      [NginxInstaller.mkdirGnupgCmd]⟩ _ r5 h5 hco5] at hrun
    try dsimp only at hrun
    obtain ⟨r6, h6, hco6⟩ := hok h5 NginxInstaller.addRepoCmd
    rw [execStep_ok conn ⟨h5, s1.trace ++ [NginxInstaller.aptUpdateCmd] ++
      [NginxInstaller.prereqCmd] ++ [NginxInstaller.keyImportCmd] ++
      [NginxInstaller.mkdirGnupgCmd] ++ [NginxInstaller.gpgVerifyCmd]⟩ _ _ r6 h6 hco6] at hrun
    try dsimp only at hrun
    obtain ⟨r7, h7, hco7⟩ := hok h6 NginxInstaller.pinningCmd
    rw [execStep_ok conn ⟨h6, s1.trace ++ [NginxInstaller.aptUpdateCmd] ++
      [NginxInstaller.prereqCmd] ++ [NginxInstaller.keyImportCmd] ++
      [NginxInstaller.mkdirGnupgCmd] ++ [NginxInstaller.gpgVerifyCmd] ++
      [NginxInstaller.addRepoCmd]⟩ _ _ r7 h7 hco7] at hrun
    try dsimp only at hrun
    obtain ⟨r8, h8, hco8⟩ := hok h7 NginxInstaller.aptUpdateCmd
    rw [execStep_ok conn ⟨h7, s1.trace ++ [NginxInstaller.aptUpdateCmd] ++
      [NginxInstaller.prereqCmd] ++ [NginxInstaller.keyImportCmd] ++
      [NginxInstaller.mkdirGnupgCmd] ++ [NginxInstaller.gpgVerifyCmd] ++
      [NginxInstaller.addRepoCmd] ++ [NginxInstaller.pinningCmd]⟩ _ _ r8 h8 hco8] at hrun
    try dsimp only at hrun
    obtain ⟨r9, h9, hco9⟩ := hok h8 NginxInstaller.aptInstallNginxCmd
    rw [execStep_ok conn ⟨h8, s1.trace ++ [NginxInstaller.aptUpdateCmd] ++
      [NginxInstaller.prereqCmd] ++ [NginxInstaller.keyImportCmd] ++
      [NginxInstaller.mkdirGnupgCmd] ++ [NginxInstaller.gpgVerifyCmd] ++
      [NginxInstaller.addRepoCmd] ++ [NginxInstaller.pinningCmd] ++
      [NginxInstaller.aptUpdateCmd]⟩ _ _ r9 h9 hco9] at hrun
    try dsimp only at hrun
    rcases hv : NginxInstaller.verifyNginxInstall conn
        ⟨h9, s1.trace ++ [NginxInstaller.aptUpdateCmd] ++
          [NginxInstaller.prereqCmd] ++ [NginxInstaller.keyImportCmd] ++
          [NginxInstaller.mkdirGnupgCmd] ++ [NginxInstaller.gpgVerifyCmd] ++
          [NginxInstaller.addRepoCmd] ++ [NginxInstaller.pinningCmd] ++
          [NginxInstaller.aptUpdateCmd] ++ [NginxInstaller.aptInstallNginxCmd]⟩
      with ⟨⟨verified, version⟩, s10⟩
    rw [hv] at hrun
    have hvext : TraceExtends
        (⟨h9, s1.trace ++ [NginxInstaller.aptUpdateCmd] ++
          [NginxInstaller.prereqCmd] ++ [NginxInstaller.keyImportCmd] ++
          [NginxInstaller.mkdirGnupgCmd] ++ [NginxInstaller.gpgVerifyCmd] ++
          [NginxInstaller.addRepoCmd] ++ [NginxInstaller.pinningCmd] ++
          [NginxInstaller.aptUpdateCmd] ++ [NginxInstaller.aptInstallNginxCmd]⟩ :
          ExecState σ) s10 := by
      have hx := verifyNginxInstall_extends conn
        ⟨h9, s1.trace ++ [NginxInstaller.aptUpdateCmd] ++
          [NginxInstaller.prereqCmd] ++ [NginxInstaller.keyImportCmd] ++
          [NginxInstaller.mkdirGnupgCmd] ++ [NginxInstaller.gpgVerifyCmd] ++
          [NginxInstaller.addRepoCmd] ++ [NginxInstaller.pinningCmd] ++
          [NginxInstaller.aptUpdateCmd] ++ [NginxInstaller.aptInstallNginxCmd]⟩
      rw [hv] at hx
      exact hx
    cases verified
    · simp only [Bool.false_eq_true, if_false] at hrun
      cases hrun
      refine ⟨?_, ?_⟩
      · intro m hm
        injection hm with hmm
        exact hmm.symm
      · intro x hx
        simp only [List.mem_cons, List.not_mem_nil, or_false] at hx
        rcases hx with rfl | rfl | rfl | rfl | rfl | rfl | rfl | rfl <;>
          exact mem_of_traceExtends (by simp) hvext
    · rw [if_pos rfl] at hrun
      dsimp only at hrun
      cases hrun
      have hext2 : TraceExtends
          (⟨h9, s1.trace ++ [NginxInstaller.aptUpdateCmd] ++
            [NginxInstaller.prereqCmd] ++ [NginxInstaller.keyImportCmd] ++
            [NginxInstaller.mkdirGnupgCmd] ++ [NginxInstaller.gpgVerifyCmd] ++
            [NginxInstaller.addRepoCmd] ++ [NginxInstaller.pinningCmd] ++
            [NginxInstaller.aptUpdateCmd] ++ [NginxInstaller.aptInstallNginxCmd]⟩ :
            ExecState σ)
          (executeCommand conn s10 NginxInstaller.startNginxCmd).2 :=
        traceExtends_trans hvext
          (executeCommand_extends conn s10 NginxInstaller.startNginxCmd)
      refine ⟨?_, ?_⟩
      · intro m hm
        simp at hm
      · intro x hx
        simp only [List.mem_cons, List.not_mem_nil, or_false] at hx
        rcases hx with rfl | rfl | rfl | rfl | rfl | rfl | rfl | rfl <;>
          exact mem_of_traceExtends (by simp) hext2

/-- Witness for the amended C2 on a host where every command completes with
exit status 1: both sequencers dispatch their full step lists regardless of
the failing exit codes, the basic-tools run resolves, and the nginx run can
only reject with the verification-failure message. -/
theorem step_failure_policy_amended_witness :
    ((∃ r, (BasicToolsInstaller.installBasicTools allFailConn ⟨(), []⟩).1 = PResult.resolved r) ∧
      ∀ c ∈ ["sudo apt update",
             "sudo apt install -y " ++ jsJoin " "
               ((BasicToolsInstaller.checkBasicToolsInstalled allFailConn ⟨(), []⟩).1.missing.map
                 BasicToolsInstaller.getPackageName)],
        c ∈ (BasicToolsInstaller.installBasicTools allFailConn ⟨(), []⟩).2.trace) ∧
    ((∀ m, (NginxInstaller.installNginx allFailConn ⟨(), []⟩).1 = PResult.rejected m →
        m = "Installation verification failed - nginx command not found in PATH") ∧
      ∀ c ∈ [NginxInstaller.aptUpdateCmd, NginxInstaller.prereqCmd,
             NginxInstaller.keyImportCmd, NginxInstaller.mkdirGnupgCmd,
             NginxInstaller.gpgVerifyCmd, NginxInstaller.addRepoCmd,
             NginxInstaller.pinningCmd, NginxInstaller.aptInstallNginxCmd],
        c ∈ (NginxInstaller.installNginx allFailConn ⟨(), []⟩).2.trace) :=
  ⟨(step_failure_policy_amended allFailConn ⟨(), []⟩
      (fun _ _ => ⟨⟨"", "", 1⟩, (), rfl⟩)).1 (by decide),
   (step_failure_policy_amended allFailConn ⟨(), []⟩
      (fun _ _ => ⟨⟨"", "", 1⟩, (), rfl⟩)).2 (by decide)⟩

/-! Claim C9: the certificate façade's precondition gate. -/

set_option maxRecDepth 8192 in
/-- Counterexample to C9 as stated: on a host where every command completes
with exit 0 and empty output, the curl response contains neither `200` nor
`404`, so the reachability precondition fails — and the façade does reject
with the precondition error and issues zero commands toward certificate
acquisition, but only *after* having dispatched the mutating setup commands
of the reachability test (ACME directory creation, ownership change, test
file write). -/
theorem precondition_mutates_before_failing_cex :
    (SimpleSSLInstaller.installLetsEncrypt allOkConn "example.com"
        "admin@example.com" "2026-01-01T00:00:00.000Z" ⟨(), []⟩).1 =
      PResult.rejected "Domain example.com is not properly configured or reachable" ∧
    SimpleSSLInstaller.acmeDirCmd ∈
      (SimpleSSLInstaller.installLetsEncrypt allOkConn "example.com"
        "admin@example.com" "2026-01-01T00:00:00.000Z" ⟨(), []⟩).2.trace ∧
    SimpleSSLInstaller.chownHtmlCmd ∈
      (SimpleSSLInstaller.installLetsEncrypt allOkConn "example.com"
        "admin@example.com" "2026-01-01T00:00:00.000Z" ⟨(), []⟩).2.trace ∧
    SimpleSSLInstaller.teeTestFileCmd "example.com" "2026-01-01T00:00:00.000Z" ∈
      (SimpleSSLInstaller.installLetsEncrypt allOkConn "example.com"
        "admin@example.com" "2026-01-01T00:00:00.000Z" ⟨(), []⟩).2.trace ∧
    "sudo apt update" ∉
      (SimpleSSLInstaller.installLetsEncrypt allOkConn "example.com"
        "admin@example.com" "2026-01-01T00:00:00.000Z" ⟨(), []⟩).2.trace ∧
    SimpleSSLInstaller.certbotInstallCmd ∉
      (SimpleSSLInstaller.installLetsEncrypt allOkConn "example.com"
        "admin@example.com" "2026-01-01T00:00:00.000Z" ⟨(), []⟩).2.trace ∧
    SimpleSSLInstaller.certonlyCmd "example.com" "admin@example.com" ∉
      (SimpleSSLInstaller.installLetsEncrypt allOkConn "example.com"
        "admin@example.com" "2026-01-01T00:00:00.000Z" ⟨(), []⟩).2.trace :=
  ⟨by decide, by decide, by decide, by decide, by decide, by decide, by decide⟩

/-- Every command the reachability test dispatches is one of its four fixed
commands. -/
theorem testDomainReachability_trace {σ : Type} (conn : Conn σ)
    (domain now : String) (st : ExecState σ) :
    ∀ c ∈ (SimpleSSLInstaller.testDomainReachability conn domain now st).2.trace,
      c ∈ st.trace ∨ c = SimpleSSLInstaller.acmeDirCmd ∨
      c = SimpleSSLInstaller.chownHtmlCmd ∨
      c = SimpleSSLInstaller.teeTestFileCmd domain now ∨
      c = SimpleSSLInstaller.curlTestCmd domain := by
  unfold SimpleSSLInstaller.testDomainReachability
  unfold execStep
  rcases h1 : executeCommand conn st SimpleSSLInstaller.acmeDirCmd with ⟨p1, s1⟩
  have ht1 : s1.trace = st.trace ++ [SimpleSSLInstaller.acmeDirCmd] := by
    have := executeCommand_trace conn st SimpleSSLInstaller.acmeDirCmd
    rw [h1] at this
    exact this
  cases p1 with
  | rejected m =>
      intro c hc
      rw [ht1] at hc
      simp only [List.mem_append, List.mem_cons, List.not_mem_nil, or_false] at hc
      tauto
  | resolved r1 =>
      dsimp only
      rcases h2 : executeCommand conn s1 SimpleSSLInstaller.chownHtmlCmd with ⟨p2, s2⟩
      have ht2 : s2.trace = st.trace ++ [SimpleSSLInstaller.acmeDirCmd,
          SimpleSSLInstaller.chownHtmlCmd] := by
        have := executeCommand_trace conn s1 SimpleSSLInstaller.chownHtmlCmd
        rw [h2] at this
        rw [this, ht1]
        simp
      cases p2 with
      | rejected m =>
          intro c hc
          rw [ht2] at hc
          simp only [List.mem_append, List.mem_cons, List.not_mem_nil, or_false] at hc
          tauto
      | resolved r2 =>
          dsimp only
          rcases h3 : executeCommand conn s2 (SimpleSSLInstaller.teeTestFileCmd domain now)
            with ⟨p3, s3⟩
          have ht3 : s3.trace = st.trace ++ [SimpleSSLInstaller.acmeDirCmd,
              SimpleSSLInstaller.chownHtmlCmd,
              SimpleSSLInstaller.teeTestFileCmd domain now] := by
            have := executeCommand_trace conn s2 (SimpleSSLInstaller.teeTestFileCmd domain now)
            rw [h3] at this
            rw [this, ht2]
            simp
          cases p3 with
          | rejected m =>
              intro c hc
              rw [ht3] at hc
              simp only [List.mem_append, List.mem_cons, List.not_mem_nil, or_false] at hc
              tauto
          | resolved r3 =>
              dsimp only
              rcases h4 : executeCommand conn s3 (SimpleSSLInstaller.curlTestCmd domain)
                with ⟨p4, s4⟩
              have ht4 : s4.trace = st.trace ++ [SimpleSSLInstaller.acmeDirCmd,
                  SimpleSSLInstaller.chownHtmlCmd,
                  SimpleSSLInstaller.teeTestFileCmd domain now,
                  SimpleSSLInstaller.curlTestCmd domain] := by
                have := executeCommand_trace conn s3 (SimpleSSLInstaller.curlTestCmd domain)
                rw [h4] at this
                rw [this, ht3]
                simp
              have hfin : ∀ c ∈ s4.trace, c ∈ st.trace ∨
                  c = SimpleSSLInstaller.acmeDirCmd ∨
                  c = SimpleSSLInstaller.chownHtmlCmd ∨
                  c = SimpleSSLInstaller.teeTestFileCmd domain now ∨
                  c = SimpleSSLInstaller.curlTestCmd domain := by
                intro c hc
                rw [ht4] at hc
                simp only [List.mem_append, List.mem_cons, List.not_mem_nil, or_false] at hc
                tauto
              cases p4 with
              | rejected m => exact hfin
              | resolved r4 =>
                  dsimp only
                  split
                  · exact hfin
                  · exact hfin

/-- C9 amended: when the domain-reachability precondition test fails (either
because the curl response shows neither `200` nor `404`, or because a test
command could not be dispatched), `installLetsEncrypt` fails with that error
and issues zero commands toward certificate acquisition — no `sudo apt
update`, no certbot installation, no `certbot certonly` — although the
mutating setup commands of the reachability test itself (ACME directory
creation, ownership change, test-file write) may already have been
dispatched before the failure. -/
theorem precondition_gate_amended {σ : Type} (conn : Conn σ)
    (domain email now : String) (h : σ)
    (hd : (domain == "") = false) (he : (email == "") = false)
    (m : String) (s' : ExecState σ)
    (htdr : SimpleSSLInstaller.testDomainReachability conn domain now ⟨h, []⟩ =
      (PResult.rejected m, s')) :
    SimpleSSLInstaller.installLetsEncrypt conn domain email now ⟨h, []⟩ =
      (PResult.rejected m, s') ∧
    "sudo apt update" ∉ s'.trace ∧
    SimpleSSLInstaller.certbotInstallCmd ∉ s'.trace ∧
    SimpleSSLInstaller.certonlyCmd domain email ∉ s'.trace := by
  have hshape := testDomainReachability_trace conn domain now ⟨h, []⟩
  rw [htdr] at hshape
  simp only [] at hshape
  have hTeeLast : (SimpleSSLInstaller.teeTestFileCmd domain now).data.getLast? =
      some 'l' := by
    unfold SimpleSSLInstaller.teeTestFileCmd
    rw [str_append_last _ _ (by decide)]
    decide
  have hCurlLast : (SimpleSSLInstaller.curlTestCmd domain).data.getLast? =
      some '1' := by
    unfold SimpleSSLInstaller.curlTestCmd
    rw [str_append_last _ _ (by decide)]
    decide
  have hCertLast : (SimpleSSLInstaller.certonlyCmd domain email).data.getLast? =
      some 's' := by
    unfold SimpleSSLInstaller.certonlyCmd
    rw [str_append_last _ _ (by decide)]
    decide
  refine ⟨?_, ?_, ?_, ?_⟩
  · unfold SimpleSSLInstaller.installLetsEncrypt
    simp only [hd, he, Bool.or_self, Bool.false_eq_true, if_false]
    rw [htdr]
  · intro hmem
    rcases hshape _ hmem with hin | h1 | h2 | h3 | h4
    · exact absurd hin (List.not_mem_nil _)
    · exact absurd h1 (by decide)
    · exact absurd h2 (by decide)
    · exact absurd h3 (str_ne_of_last (by rw [hTeeLast]; decide))
    · exact absurd h4 (str_ne_of_last (by rw [hCurlLast]; decide))
  · intro hmem
    rcases hshape _ hmem with hin | h1 | h2 | h3 | h4
    · exact absurd hin (List.not_mem_nil _)
    · exact absurd h1 (by decide)
    · exact absurd h2 (by decide)
    · exact absurd h3 (str_ne_of_last (by rw [hTeeLast]; decide))
    · exact absurd h4 (str_ne_of_last (by rw [hCurlLast]; decide))
  · intro hmem
    rcases hshape _ hmem with hin | h1 | h2 | h3 | h4
    · exact absurd hin (List.not_mem_nil _)
    · exact absurd h1 (str_ne_of_last (by rw [hCertLast]; decide))
    · exact absurd h2 (str_ne_of_last (by rw [hCertLast]; decide))
    · exact absurd h3 (str_ne_of_last (by rw [hCertLast, hTeeLast]; decide))
    · exact absurd h4 (str_ne_of_last (by rw [hCertLast, hCurlLast]; decide))

set_option maxRecDepth 8192 in
/-- Witness for the amended C9: on the all-exit-0 host the reachability test
rejects, the façade surfaces exactly that error, and none of the three
certificate-acquisition commands appears on the dispatched trace. -/
theorem precondition_gate_amended_witness :
    SimpleSSLInstaller.installLetsEncrypt allOkConn "example.com"
        "admin@example.com" "2026-01-01T00:00:00.000Z" ⟨(), []⟩ =
      (PResult.rejected "Domain example.com is not properly configured or reachable",
       ⟨(), [SimpleSSLInstaller.acmeDirCmd, SimpleSSLInstaller.chownHtmlCmd,
         SimpleSSLInstaller.teeTestFileCmd "example.com" "2026-01-01T00:00:00.000Z",
         SimpleSSLInstaller.curlTestCmd "example.com"]⟩) ∧
    "sudo apt update" ∉
      ([SimpleSSLInstaller.acmeDirCmd, SimpleSSLInstaller.chownHtmlCmd,
        SimpleSSLInstaller.teeTestFileCmd "example.com" "2026-01-01T00:00:00.000Z",
        SimpleSSLInstaller.curlTestCmd "example.com"] : List String) ∧
    SimpleSSLInstaller.certbotInstallCmd ∉
      ([SimpleSSLInstaller.acmeDirCmd, SimpleSSLInstaller.chownHtmlCmd,
        SimpleSSLInstaller.teeTestFileCmd "example.com" "2026-01-01T00:00:00.000Z",
        SimpleSSLInstaller.curlTestCmd "example.com"] : List String) ∧
    SimpleSSLInstaller.certonlyCmd "example.com" "admin@example.com" ∉
      ([SimpleSSLInstaller.acmeDirCmd, SimpleSSLInstaller.chownHtmlCmd,
        SimpleSSLInstaller.teeTestFileCmd "example.com" "2026-01-01T00:00:00.000Z",
        SimpleSSLInstaller.curlTestCmd "example.com"] : List String) :=
  precondition_gate_amended allOkConn "example.com" "admin@example.com"
    "2026-01-01T00:00:00.000Z" () (by decide) (by decide)
    "Domain example.com is not properly configured or reachable"
    ⟨(), [SimpleSSLInstaller.acmeDirCmd, SimpleSSLInstaller.chownHtmlCmd,
      SimpleSSLInstaller.teeTestFileCmd "example.com" "2026-01-01T00:00:00.000Z",
      SimpleSSLInstaller.curlTestCmd "example.com"]⟩ (by decide)

/-! Claim C7: the idempotency probes never fail. -/

/-- A resolved `executeCommand` came from a completed dispatch with the same
command result. -/
theorem executeCommand_resolved_inv {σ : Type} (conn : Conn σ)
    (st : ExecState σ) (cmd : String) (r : CmdResult) (s : ExecState σ)
    (he : executeCommand conn st cmd = (PResult.resolved r, s)) :
    (conn st.host cmd).1 = ExecOutcome.ok r := by
  unfold executeCommand at he
  rcases hco : conn st.host cmd with ⟨o, h2⟩
  rw [hco] at he
  cases o with
  | err m => exact absurd he (by simp)
  | ok r' =>
      dsimp only at he ⊢
      split at he <;>
        (injection he with h1 h2x
         injection h1 with h11
         rw [h11])

/-- Under a session that never reports a zero exit (transport failures and
non-zero exits only), a tool probe answers `false`. -/
theorem checkToolInstalled_no_signal {σ : Type} (conn : Conn σ)
    (hnp : ∀ (h : σ) (c : String) (r : CmdResult),
      (conn h c).1 = ExecOutcome.ok r → r.exitCode ≠ 0)
    (st : ExecState σ) (tool : String) :
    (BasicToolsInstaller.checkToolInstalled conn st tool).1 = false := by
  unfold BasicToolsInstaller.checkToolInstalled
  rcases he : executeCommand conn st (BasicToolsInstaller.checkCmd tool) with ⟨p, s⟩
  cases p with
  | rejected m => rfl
  | resolved r =>
      dsimp only
      have := hnp st.host (BasicToolsInstaller.checkCmd tool) r
        (executeCommand_resolved_inv conn st _ r s he)
      simp [this]

/-- Under a no-signal session the tool loop marks every tool missing. -/
theorem checkToolsLoop_no_signal {σ : Type} (conn : Conn σ)
    (hnp : ∀ (h : σ) (c : String) (r : CmdResult),
      (conn h c).1 = ExecOutcome.ok r → r.exitCode ≠ 0) :
    ∀ (l inst miss : List String) (st : ExecState σ),
      (BasicToolsInstaller.checkToolsLoop conn l inst miss st).1 = inst ∧
      (BasicToolsInstaller.checkToolsLoop conn l inst miss st).2.1 = miss ++ l := by
  intro l
  induction l with
  | nil =>
      intro inst miss st
      exact ⟨rfl, by simp [BasicToolsInstaller.checkToolsLoop]⟩
  | cons tool rest ih =>
      intro inst miss st
      unfold BasicToolsInstaller.checkToolsLoop
      rcases hc : BasicToolsInstaller.checkToolInstalled conn st tool with ⟨b, s'⟩
      have hb : b = false := by
        have := checkToolInstalled_no_signal conn hnp st tool
        rw [hc] at this
        exact this
      subst hb
      dsimp only
      rcases ih inst (miss ++ [tool]) s' with ⟨h1, h2⟩
      exact ⟨h1, by rw [h2]; simp⟩

/-- Under a no-signal session the binary-path loop reports not installed and
leaves the version variable untouched. -/
theorem checkNginxPaths_no_signal {σ : Type} (conn : Conn σ)
    (hnp : ∀ (h : σ) (c : String) (r : CmdResult),
      (conn h c).1 = ExecOutcome.ok r → r.exitCode ≠ 0) :
    ∀ (ps : List String) (v : String) (st : ExecState σ),
      (NginxInstaller.checkNginxPaths conn ps v st).1 = (false, v) := by
  intro ps
  induction ps with
  | nil => intro v st; rfl
  | cons path rest ih =>
      intro v st
      unfold NginxInstaller.checkNginxPaths
      rcases he : executeCommand conn st (path ++ " -v 2>&1") with ⟨p, s⟩
      cases p with
      | rejected m => exact ih v s
      | resolved r =>
          dsimp only
          have := hnp st.host (path ++ " -v 2>&1") r
            (executeCommand_resolved_inv conn st _ r s he)
          simp only [beq_eq_false_iff_ne.mpr this, Bool.false_eq_true, if_false]
          exact ih v s

/-- Under a no-signal session the `command -v` method reports not
installed. -/
theorem checkNginxCommandV_no_signal {σ : Type} (conn : Conn σ)
    (hnp : ∀ (h : σ) (c : String) (r : CmdResult),
      (conn h c).1 = ExecOutcome.ok r → r.exitCode ≠ 0)
    (v : String) (st : ExecState σ) :
    (NginxInstaller.checkNginxCommandV conn v st).1 = (false, v) := by
  unfold NginxInstaller.checkNginxCommandV
  rcases he : executeCommand conn st "command -v nginx" with ⟨p, s⟩
  cases p with
  | rejected m => rfl
  | resolved which =>
      dsimp only
      have := hnp st.host "command -v nginx" which
        (executeCommand_resolved_inv conn st _ which s he)
      simp [beq_eq_false_iff_ne.mpr this]

/-- Under a no-signal session the `dpkg` method reports not installed. -/
theorem checkNginxDpkg_no_signal {σ : Type} (conn : Conn σ)
    (hnp : ∀ (h : σ) (c : String) (r : CmdResult),
      (conn h c).1 = ExecOutcome.ok r → r.exitCode ≠ 0)
    (v : String) (st : ExecState σ) :
    (NginxInstaller.checkNginxDpkg conn v st).1 = (false, v) := by
  unfold NginxInstaller.checkNginxDpkg
  rcases he : executeCommand conn st NginxInstaller.dpkgCmd with ⟨p, s⟩
  cases p with
  | rejected m => rfl
  | resolved r =>
      dsimp only
      have := hnp st.host NginxInstaller.dpkgCmd r
        (executeCommand_resolved_inv conn st _ r s he)
      simp [beq_eq_false_iff_ne.mpr this]

/-- Under a no-signal session the service-list method reports not
installed. -/
theorem checkNginxService_no_signal {σ : Type} (conn : Conn σ)
    (hnp : ∀ (h : σ) (c : String) (r : CmdResult),
      (conn h c).1 = ExecOutcome.ok r → r.exitCode ≠ 0)
    (v : String) (st : ExecState σ) :
    (NginxInstaller.checkNginxService conn v st).1 = (false, v) := by
  unfold NginxInstaller.checkNginxService
  rcases he : executeCommand conn st NginxInstaller.listUnitsCmd with ⟨p, s⟩
  cases p with
  | rejected m => rfl
  | resolved r =>
      dsimp only
      have := hnp st.host NginxInstaller.listUnitsCmd r
        (executeCommand_resolved_inv conn st _ r s he)
      simp [beq_eq_false_iff_ne.mpr this]

/-- C7: the idempotency probes never fail. On a session that yields no
positive signal — every dispatch either fails at transport level or
completes with a non-zero exit — the per-tool probe answers `false`, the
tool-set probe reports every tool missing (allInstalled = false) rather than
raising an error, the nginx probe reports `{installed: false, running:
false}` rather than raising an error, and both façades then proceed to
install, dispatching `sudo apt update`. -/
theorem probe_never_fails {σ : Type} (conn : Conn σ)
    (hnp : ∀ (h : σ) (c : String) (r : CmdResult),
      (conn h c).1 = ExecOutcome.ok r → r.exitCode ≠ 0) :
    (∀ (st : ExecState σ) (tool : String),
      (BasicToolsInstaller.checkToolInstalled conn st tool).1 = false) ∧
    (∀ st : ExecState σ,
      (BasicToolsInstaller.checkBasicToolsInstalled conn st).1 =
        { installed := [], missing := BasicToolsInstaller.tools,
          allInstalled := false }) ∧
    (∀ st : ExecState σ,
      (NginxInstaller.checkNginxInstalled conn st).1 =
        { installed := false, version := none, running := false }) ∧
    (∀ st : ExecState σ,
      "sudo apt update" ∈ (BasicToolsInstaller.installBasicTools conn st).2.trace) ∧
    (∀ st : ExecState σ,
      NginxInstaller.aptUpdateCmd ∈ (NginxInstaller.installNginx conn st).2.trace) := by
  have hTools : ∀ st : ExecState σ,
      (BasicToolsInstaller.checkBasicToolsInstalled conn st).1 =
        { installed := [], missing := BasicToolsInstaller.tools,
          allInstalled := false } := by
    intro st
    unfold BasicToolsInstaller.checkBasicToolsInstalled
    rcases hl : BasicToolsInstaller.checkToolsLoop conn BasicToolsInstaller.tools [] [] st
      with ⟨inst, miss, s'⟩
    have h1 := (checkToolsLoop_no_signal conn hnp BasicToolsInstaller.tools [] [] st).1
    have h2 := (checkToolsLoop_no_signal conn hnp BasicToolsInstaller.tools [] [] st).2
    rw [hl] at h1 h2
    simp only [] at h1 h2
    dsimp only
    rw [h1, h2]
    decide
  have hNginx : ∀ st : ExecState σ,
      (NginxInstaller.checkNginxInstalled conn st).1 =
        { installed := false, version := none, running := false } := by
    intro st
    unfold NginxInstaller.checkNginxInstalled
    rcases h1 : NginxInstaller.checkNginxPaths conn NginxInstaller.nginxPaths "unknown" st
      with ⟨iv1, st1⟩
    have hv1 := checkNginxPaths_no_signal conn hnp NginxInstaller.nginxPaths "unknown" st
    rw [h1] at hv1
    simp only [] at hv1
    subst hv1
    dsimp only
    simp only [Bool.false_eq_true, if_false]
    rcases h2 : NginxInstaller.checkNginxCommandV conn "unknown" st1 with ⟨iv2, st2⟩
    have hv2 := checkNginxCommandV_no_signal conn hnp "unknown" st1
    rw [h2] at hv2
    simp only [] at hv2
    subst hv2
    dsimp only
    simp only [Bool.false_eq_true, if_false]
    rcases h3 : NginxInstaller.checkNginxDpkg conn "unknown" st2 with ⟨iv3, st3⟩
    have hv3 := checkNginxDpkg_no_signal conn hnp "unknown" st2
    rw [h3] at hv3
    simp only [] at hv3
    subst hv3
    dsimp only
    simp only [Bool.false_eq_true, if_false]
    rcases h4 : NginxInstaller.checkNginxService conn "unknown" st3 with ⟨iv4, st4⟩
    have hv4 := checkNginxService_no_signal conn hnp "unknown" st3
    rw [h4] at hv4
    simp only [] at hv4
    subst hv4
    dsimp only
    rfl
  refine ⟨fun st tool => checkToolInstalled_no_signal conn hnp st tool,
    hTools, hNginx, ?_, ?_⟩
  · intro st
    unfold BasicToolsInstaller.installBasicTools
    rcases hc : BasicToolsInstaller.checkBasicToolsInstalled conn st with ⟨c, s1⟩
    have hall : c.allInstalled = false := by
      have := hTools st
      rw [hc] at this
      simp only [] at this
      rw [this]
    dsimp only
    simp only [hall, Bool.false_eq_true, if_false]
    apply execStep_mem_cmd
    intro r s
    dsimp only
    have hAI : TraceExtends s
        ((if (jsJoin " " (c.missing.map BasicToolsInstaller.getPackageName) == "") = true
          then (PResult.resolved (), s)
          else execStep conn s
            ("sudo apt install -y " ++
              jsJoin " " (c.missing.map BasicToolsInstaller.getPackageName))
            (fun _ s' => (PResult.resolved (), s'))).2) := by
      split
      · exact traceExtends_refl s
      · exact execStep_extends conn s _ _ (fun _ s' => traceExtends_refl s')
    rcases hai : (if (jsJoin " " (c.missing.map BasicToolsInstaller.getPackageName) == "") = true
        then (PResult.resolved (), s)
        else execStep conn s
          ("sudo apt install -y " ++
            jsJoin " " (c.missing.map BasicToolsInstaller.getPackageName))
          (fun _ s' => (PResult.resolved (), s'))) with ⟨pai, sai⟩
    rw [hai] at hAI
    cases pai with
    | rejected m => exact hAI
    | resolved u =>
        dsimp only
        rcases hf : BasicToolsInstaller.checkBasicToolsInstalled conn sai with ⟨fc, st4⟩
        have hext : TraceExtends sai st4 := by
          have := checkBasicToolsInstalled_extends conn sai
          rw [hf] at this
          exact this
        dsimp only
        split <;> exact traceExtends_trans hAI hext
  · intro st
    unfold NginxInstaller.installNginx
    rcases hc : NginxInstaller.checkNginxInstalled conn st with ⟨c, s1⟩
    have hpr : c.installed = false := by
      have := hNginx st
      rw [hc] at this
      simp only [] at this
      rw [this]
    dsimp only
    simp only [hpr, Bool.false_eq_true, if_false]
    apply execStep_mem_cmd
    intro r1 s1'
    apply execStep_extends
    intro r2 s2
    apply execStep_extends
    intro r3 s3
    dsimp only
    rcases hm : executeCommand conn s3 NginxInstaller.mkdirGnupgCmd with ⟨pm, s4⟩
    have h4 : TraceExtends s3 s4 := by
      have := executeCommand_extends conn s3 NginxInstaller.mkdirGnupgCmd
      rw [hm] at this
      exact this
    have tail : ∀ s5 : ExecState σ, TraceExtends s3 s5 →
        TraceExtends s3
          ((execStep conn s5 NginxInstaller.addRepoCmd (fun _ s6 =>
            execStep conn s6 NginxInstaller.pinningCmd (fun _ s7 =>
            execStep conn s7 NginxInstaller.aptUpdateCmd (fun _ s8 =>
            execStep conn s8 NginxInstaller.aptInstallNginxCmd (fun _ s9 =>
              match NginxInstaller.verifyNginxInstall conn s9 with
              | ((verified, version), s10) =>
                if verified then
                  (PResult.resolved
                    ({ installed := true, version := some version,
                       running := true } : NginxInstaller.NginxCheckResult),
                   (executeCommand conn s10 NginxInstaller.startNginxCmd).2)
                else
                  (PResult.rejected
                    "Installation verification failed - nginx command not found in PATH",
                   s10)))))).2) := by
      intro s5 h5
      refine traceExtends_trans h5 ?_
      apply execStep_extends
      intro r6 s6
      apply execStep_extends
      intro r7 s7
      apply execStep_extends
      intro r8 s8
      apply execStep_extends
      intro r9 s9
      rcases hv : NginxInstaller.verifyNginxInstall conn s9 with ⟨⟨verified, version⟩, s10⟩
      have hv_ext : TraceExtends s9 s10 := by
        have := verifyNginxInstall_extends conn s9
        rw [hv] at this
        exact this
      cases verified with
      | true =>
          dsimp only
          exact traceExtends_trans hv_ext
            (executeCommand_extends conn s10 NginxInstaller.startNginxCmd)
      | false =>
          dsimp only
          exact hv_ext
    cases pm with
    | rejected mm =>
        dsimp only
        exact tail s4 h4
    | resolved u =>
        dsimp only
        exact tail (executeCommand conn s4 NginxInstaller.gpgVerifyCmd).2
          (traceExtends_trans h4
            (executeCommand_extends conn s4 NginxInstaller.gpgVerifyCmd))

/-- Witness for C7 on two hosts: one whose transport fails on every
dispatch and one whose every command exits 1 — both probes report
not-installed instead of failing, and the runs proceed to `sudo apt
update`. -/
theorem probe_never_fails_witness :
    (BasicToolsInstaller.checkBasicToolsInstalled transportErrConn ⟨(), []⟩).1 =
      { installed := [], missing := BasicToolsInstaller.tools,
        allInstalled := false } ∧
    (NginxInstaller.checkNginxInstalled transportErrConn ⟨(), []⟩).1 =
      { installed := false, version := none, running := false } ∧
    (NginxInstaller.checkNginxInstalled allFailConn ⟨(), []⟩).1 =
      { installed := false, version := none, running := false } ∧
    "sudo apt update" ∈
      (BasicToolsInstaller.installBasicTools allFailConn ⟨(), []⟩).2.trace ∧
    NginxInstaller.aptUpdateCmd ∈
      (NginxInstaller.installNginx transportErrConn ⟨(), []⟩).2.trace := by
  have herr : ∀ (h : Unit) (c : String) (r : CmdResult),
      (transportErrConn h c).1 = ExecOutcome.ok r → r.exitCode ≠ 0 := by
    intro h c r hr
    simp [transportErrConn] at hr
  have hfail : ∀ (h : Unit) (c : String) (r : CmdResult),
      (allFailConn h c).1 = ExecOutcome.ok r → r.exitCode ≠ 0 := by
    intro h c r hr
    simp [allFailConn] at hr
    rw [← hr]
    decide
  exact ⟨(probe_never_fails transportErrConn herr).2.1 ⟨(), []⟩,
    (probe_never_fails transportErrConn herr).2.2.1 ⟨(), []⟩,
    (probe_never_fails allFailConn hfail).2.2.1 ⟨(), []⟩,
    (probe_never_fails allFailConn hfail).2.2.2.1 ⟨(), []⟩,
    (probe_never_fails transportErrConn herr).2.2.2.2 ⟨(), []⟩⟩

/-! Claim C6: fixed fallback order of the nginx idempotency probe. -/

/-- Version-query commands end in ` -v 2>&1` and therefore never coincide
with the probe's other detection commands. -/
theorem vSuffix_ne_cmdV (p : String) : p ++ " -v 2>&1" ≠ "command -v nginx" :=
  str_ne_of_last (by rw [str_append_last _ _ (by decide)]; decide)

theorem vSuffix_ne_dpkg (p : String) : p ++ " -v 2>&1" ≠ NginxInstaller.dpkgCmd :=
  str_ne_of_last (by rw [str_append_last _ _ (by decide)]; decide)

theorem vSuffix_ne_listUnits (p : String) :
    p ++ " -v 2>&1" ≠ NginxInstaller.listUnitsCmd :=
  str_ne_of_last (by rw [str_append_last _ _ (by decide)]; decide)

theorem vSuffix_ne_isActive (p : String) :
    p ++ " -v 2>&1" ≠ NginxInstaller.isActiveCmd :=
  str_ne_of_last (by rw [str_append_last _ _ (by decide)]; decide)

/-- The binary-path loop dispatches only ` -v 2>&1`-suffixed version
queries. -/
theorem checkNginxPaths_trace {σ : Type} (conn : Conn σ) :
    ∀ (ps : List String) (v : String) (st : ExecState σ),
      ∃ l, (NginxInstaller.checkNginxPaths conn ps v st).2.trace = st.trace ++ l ∧
        ∀ c ∈ l, ∃ p, c = p ++ " -v 2>&1" := by
  intro ps
  induction ps with
  | nil =>
      intro v st
      exact ⟨[], by simp [NginxInstaller.checkNginxPaths], by simp⟩
  | cons path rest ih =>
      intro v st
      unfold NginxInstaller.checkNginxPaths
      rcases he : executeCommand conn st (path ++ " -v 2>&1") with ⟨p, s⟩
      have ht : s.trace = st.trace ++ [path ++ " -v 2>&1"] := by
        have := executeCommand_trace conn st (path ++ " -v 2>&1")
        rw [he] at this
        exact this
      have hrec : ∀ v', ∃ l,
          (NginxInstaller.checkNginxPaths conn rest v' s).2.trace = st.trace ++
            ((path ++ " -v 2>&1") :: l) ∧
          ∀ c ∈ l, ∃ p', c = p' ++ " -v 2>&1" := by
        intro v'
        obtain ⟨l, hl, hall⟩ := ih v' s
        exact ⟨l, by rw [hl, ht]; simp, hall⟩
      cases p with
      | rejected m =>
          obtain ⟨l, hl, hall⟩ := hrec v
          refine ⟨(path ++ " -v 2>&1") :: l, hl, ?_⟩
          intro c hc
          rcases List.mem_cons.mp hc with h | h
          · exact ⟨path, h⟩
          · exact hall c h
      | resolved r =>
          dsimp only
          split
          · split
            · obtain ⟨l, hl, hall⟩ := hrec (NginxInstaller.pickVersion r)
              refine ⟨(path ++ " -v 2>&1") :: l, hl, ?_⟩
              intro c hc
              rcases List.mem_cons.mp hc with h | h
              · exact ⟨path, h⟩
              · exact hall c h
            · refine ⟨[path ++ " -v 2>&1"], ht, ?_⟩
              intro c hc
              simp only [List.mem_singleton] at hc
              exact ⟨path, hc⟩
          · obtain ⟨l, hl, hall⟩ := hrec v
            refine ⟨(path ++ " -v 2>&1") :: l, hl, ?_⟩
            intro c hc
            rcases List.mem_cons.mp hc with h | h
            · exact ⟨path, h⟩
            · exact hall c h

/-- The `command -v` method dispatches `command -v nginx` and possibly one
` -v 2>&1`-suffixed version query. -/
theorem checkNginxCommandV_trace {σ : Type} (conn : Conn σ) (v : String)
    (st : ExecState σ) :
    ∃ l, (NginxInstaller.checkNginxCommandV conn v st).2.trace = st.trace ++ l ∧
      ∀ c ∈ l, c = "command -v nginx" ∨ ∃ p, c = p ++ " -v 2>&1" := by
  unfold NginxInstaller.checkNginxCommandV
  rcases he : executeCommand conn st "command -v nginx" with ⟨p, s⟩
  have ht : s.trace = st.trace ++ ["command -v nginx"] := by
    have := executeCommand_trace conn st "command -v nginx"
    rw [he] at this
    exact this
  cases p with
  | rejected m =>
      refine ⟨["command -v nginx"], ht, ?_⟩
      intro c hc
      simp only [List.mem_singleton] at hc
      exact Or.inl hc
  | resolved which =>
      dsimp only
      split
      · rcases he2 : executeCommand conn s (jsTrim which.output ++ " -v 2>&1")
          with ⟨p2, s2⟩
        have ht2 : s2.trace = st.trace ++
            ["command -v nginx", jsTrim which.output ++ " -v 2>&1"] := by
          have := executeCommand_trace conn s (jsTrim which.output ++ " -v 2>&1")
          rw [he2] at this
          rw [this, ht]
          simp
        have hboth : ∀ c ∈ ["command -v nginx", jsTrim which.output ++ " -v 2>&1"],
            c = "command -v nginx" ∨ ∃ p', c = p' ++ " -v 2>&1" := by
          intro c hc
          rcases List.mem_cons.mp hc with h | h
          · exact Or.inl h
          · simp only [List.mem_singleton] at h
            exact Or.inr ⟨jsTrim which.output, h⟩
        cases p2 with
        | rejected m => exact ⟨_, ht2, hboth⟩
        | resolved r =>
            dsimp only
            split
            · split
              · exact ⟨_, ht2, hboth⟩
              · exact ⟨_, ht2, hboth⟩
            · exact ⟨_, ht2, hboth⟩
      · refine ⟨["command -v nginx"], ht, ?_⟩
        intro c hc
        simp only [List.mem_singleton] at hc
        exact Or.inl hc

/-- The `dpkg` method dispatches exactly its one command. -/
theorem checkNginxDpkg_trace {σ : Type} (conn : Conn σ) (v : String)
    (st : ExecState σ) :
    (NginxInstaller.checkNginxDpkg conn v st).2.trace =
      st.trace ++ [NginxInstaller.dpkgCmd] := by
  unfold NginxInstaller.checkNginxDpkg
  rcases he : executeCommand conn st NginxInstaller.dpkgCmd with ⟨p, s⟩
  have ht : s.trace = st.trace ++ [NginxInstaller.dpkgCmd] := by
    have := executeCommand_trace conn st NginxInstaller.dpkgCmd
    rw [he] at this
    exact this
  cases p with
  | rejected m => exact ht
  | resolved r =>
      dsimp only
      split <;> exact ht

/-- The service-list method dispatches exactly its one command. -/
theorem checkNginxService_trace {σ : Type} (conn : Conn σ) (v : String)
    (st : ExecState σ) :
    (NginxInstaller.checkNginxService conn v st).2.trace =
      st.trace ++ [NginxInstaller.listUnitsCmd] := by
  unfold NginxInstaller.checkNginxService
  rcases he : executeCommand conn st NginxInstaller.listUnitsCmd with ⟨p, s⟩
  have ht : s.trace = st.trace ++ [NginxInstaller.listUnitsCmd] := by
    have := executeCommand_trace conn st NginxInstaller.listUnitsCmd
    rw [he] at this
    exact this
  cases p with
  | rejected m => exact ht
  | resolved r =>
      dsimp only
      split <;> exact ht

/-- The running sub-state probe dispatches exactly `systemctl is-active
nginx`. -/
theorem checkNginxActive_trace {σ : Type} (conn : Conn σ) (st : ExecState σ) :
    (NginxInstaller.checkNginxActive conn st).2.trace =
      st.trace ++ [NginxInstaller.isActiveCmd] := by
  unfold NginxInstaller.checkNginxActive
  rcases he : executeCommand conn st NginxInstaller.isActiveCmd with ⟨p, s⟩
  have ht : s.trace = st.trace ++ [NginxInstaller.isActiveCmd] := by
    have := executeCommand_trace conn st NginxInstaller.isActiveCmd
    rw [he] at this
    exact this
  cases p <;> exact ht

/-- C6: `checkNginxInstalled` tries its detection methods in the fixed
fallback order — well-known binary paths, then `command -v nginx`, then the
dpkg record, then the systemd unit list — each later method running on the
state the earlier ones left, and stops at the first method that yields a
positive signal: the commands of the untried later methods never appear on
the dispatched trace (only the running sub-state probe follows a positive
detection). When no method is positive the probe reports
`{installed: false, running: false}` and the running probe is skipped. -/
theorem nginx_probe_fallback_order {σ : Type} (conn : Conn σ) (h : σ) :
    (∀ v1 st1,
      NginxInstaller.checkNginxPaths conn NginxInstaller.nginxPaths "unknown" ⟨h, []⟩ =
        ((true, v1), st1) →
      NginxInstaller.checkNginxInstalled conn ⟨h, []⟩ =
        ({ installed := true, version := some v1,
           running := (NginxInstaller.checkNginxActive conn st1).1 },
         (NginxInstaller.checkNginxActive conn st1).2) ∧
      "command -v nginx" ∉ (NginxInstaller.checkNginxInstalled conn ⟨h, []⟩).2.trace ∧
      NginxInstaller.dpkgCmd ∉ (NginxInstaller.checkNginxInstalled conn ⟨h, []⟩).2.trace ∧
      NginxInstaller.listUnitsCmd ∉ (NginxInstaller.checkNginxInstalled conn ⟨h, []⟩).2.trace) ∧
    (∀ v1 st1 v2 st2,
      NginxInstaller.checkNginxPaths conn NginxInstaller.nginxPaths "unknown" ⟨h, []⟩ =
        ((false, v1), st1) →
      NginxInstaller.checkNginxCommandV conn v1 st1 = ((true, v2), st2) →
      NginxInstaller.checkNginxInstalled conn ⟨h, []⟩ =
        ({ installed := true, version := some v2,
           running := (NginxInstaller.checkNginxActive conn st2).1 },
         (NginxInstaller.checkNginxActive conn st2).2) ∧
      NginxInstaller.dpkgCmd ∉ (NginxInstaller.checkNginxInstalled conn ⟨h, []⟩).2.trace ∧
      NginxInstaller.listUnitsCmd ∉ (NginxInstaller.checkNginxInstalled conn ⟨h, []⟩).2.trace) ∧
    (∀ v1 st1 v2 st2 v3 st3,
      NginxInstaller.checkNginxPaths conn NginxInstaller.nginxPaths "unknown" ⟨h, []⟩ =
        ((false, v1), st1) →
      NginxInstaller.checkNginxCommandV conn v1 st1 = ((false, v2), st2) →
      NginxInstaller.checkNginxDpkg conn v2 st2 = ((true, v3), st3) →
      NginxInstaller.checkNginxInstalled conn ⟨h, []⟩ =
        ({ installed := true, version := some v3,
           running := (NginxInstaller.checkNginxActive conn st3).1 },
         (NginxInstaller.checkNginxActive conn st3).2) ∧
      NginxInstaller.listUnitsCmd ∉ (NginxInstaller.checkNginxInstalled conn ⟨h, []⟩).2.trace) ∧
    (∀ v1 st1 v2 st2 v3 st3 v4 st4,
      NginxInstaller.checkNginxPaths conn NginxInstaller.nginxPaths "unknown" ⟨h, []⟩ =
        ((false, v1), st1) →
      NginxInstaller.checkNginxCommandV conn v1 st1 = ((false, v2), st2) →
      NginxInstaller.checkNginxDpkg conn v2 st2 = ((false, v3), st3) →
      NginxInstaller.checkNginxService conn v3 st3 = ((true, v4), st4) →
      NginxInstaller.checkNginxInstalled conn ⟨h, []⟩ =
        ({ installed := true, version := some v4,
           running := (NginxInstaller.checkNginxActive conn st4).1 },
         (NginxInstaller.checkNginxActive conn st4).2)) ∧
    (∀ v1 st1 v2 st2 v3 st3 v4 st4,
      NginxInstaller.checkNginxPaths conn NginxInstaller.nginxPaths "unknown" ⟨h, []⟩ =
        ((false, v1), st1) →
      NginxInstaller.checkNginxCommandV conn v1 st1 = ((false, v2), st2) →
      NginxInstaller.checkNginxDpkg conn v2 st2 = ((false, v3), st3) →
      NginxInstaller.checkNginxService conn v3 st3 = ((false, v4), st4) →
      NginxInstaller.checkNginxInstalled conn ⟨h, []⟩ =
        ({ installed := false, version := none, running := false }, st4)) := by
  refine ⟨?_, ?_, ?_, ?_, ?_⟩
  · intro v1 st1 hp
    have heq : NginxInstaller.checkNginxInstalled conn ⟨h, []⟩ =
        ({ installed := true, version := some v1,
           running := (NginxInstaller.checkNginxActive conn st1).1 },
         (NginxInstaller.checkNginxActive conn st1).2) := by
      rcases ha : NginxInstaller.checkNginxActive conn st1 with ⟨run, st5⟩
      unfold NginxInstaller.checkNginxInstalled
      simp [hp, ha]
    obtain ⟨l1, hl1, hall1⟩ :=
      checkNginxPaths_trace conn NginxInstaller.nginxPaths "unknown" ⟨h, []⟩
    rw [hp] at hl1
    simp only [List.nil_append] at hl1
    have htr : (NginxInstaller.checkNginxInstalled conn ⟨h, []⟩).2.trace =
        l1 ++ [NginxInstaller.isActiveCmd] := by
      rw [heq]
      dsimp only
      rw [checkNginxActive_trace, hl1]
    refine ⟨heq, ?_, ?_, ?_⟩
    · intro hmem
      rw [htr] at hmem
      rcases List.mem_append.mp hmem with hA | hB
      · obtain ⟨p, hpc⟩ := hall1 _ hA
        exact vSuffix_ne_cmdV p hpc.symm
      · simp only [List.mem_singleton] at hB
        exact absurd hB (by decide)
    · intro hmem
      rw [htr] at hmem
      rcases List.mem_append.mp hmem with hA | hB
      · obtain ⟨p, hpc⟩ := hall1 _ hA
        exact vSuffix_ne_dpkg p hpc.symm
      · simp only [List.mem_singleton] at hB
        exact absurd hB (by decide)
    · intro hmem
      rw [htr] at hmem
      rcases List.mem_append.mp hmem with hA | hB
      · obtain ⟨p, hpc⟩ := hall1 _ hA
        exact vSuffix_ne_listUnits p hpc.symm
      · simp only [List.mem_singleton] at hB
        exact absurd hB (by decide)
  · intro v1 st1 v2 st2 hp hcv
    have heq : NginxInstaller.checkNginxInstalled conn ⟨h, []⟩ =
        ({ installed := true, version := some v2,
           running := (NginxInstaller.checkNginxActive conn st2).1 },
         (NginxInstaller.checkNginxActive conn st2).2) := by
      rcases ha : NginxInstaller.checkNginxActive conn st2 with ⟨run, st5⟩
      unfold NginxInstaller.checkNginxInstalled
      simp [hp, hcv, ha]
    obtain ⟨l1, hl1, hall1⟩ :=
      checkNginxPaths_trace conn NginxInstaller.nginxPaths "unknown" ⟨h, []⟩
    rw [hp] at hl1
    simp only [List.nil_append] at hl1
    obtain ⟨l2, hl2, hall2⟩ := checkNginxCommandV_trace conn v1 st1
    rw [hcv] at hl2
    simp only [] at hl2
    have htr : (NginxInstaller.checkNginxInstalled conn ⟨h, []⟩).2.trace =
        (l1 ++ l2) ++ [NginxInstaller.isActiveCmd] := by
      rw [heq]
      dsimp only
      rw [checkNginxActive_trace, hl2, hl1]
    have hnotin : ∀ t : String, (∀ p : String, t ≠ p ++ " -v 2>&1") →
        t ≠ "command -v nginx" → t ≠ NginxInstaller.isActiveCmd →
        t ∉ (NginxInstaller.checkNginxInstalled conn ⟨h, []⟩).2.trace := by
      intro t hsuf hcmdv hact hmem
      rw [htr] at hmem
      rcases List.mem_append.mp hmem with hA | hB
      · rcases List.mem_append.mp hA with hA1 | hA2
        · obtain ⟨p, hpc⟩ := hall1 _ hA1
          exact hsuf p hpc
        · rcases hall2 _ hA2 with hc | ⟨p, hpc⟩
          · exact hcmdv hc
          · exact hsuf p hpc
      · simp only [List.mem_singleton] at hB
        exact hact hB
    refine ⟨heq, ?_, ?_⟩
    · exact hnotin NginxInstaller.dpkgCmd
        (fun p hc => vSuffix_ne_dpkg p hc.symm) (by decide) (by decide)
    · exact hnotin NginxInstaller.listUnitsCmd
        (fun p hc => vSuffix_ne_listUnits p hc.symm) (by decide) (by decide)
  · intro v1 st1 v2 st2 v3 st3 hp hcv hdp
    have heq : NginxInstaller.checkNginxInstalled conn ⟨h, []⟩ =
        ({ installed := true, version := some v3,
           running := (NginxInstaller.checkNginxActive conn st3).1 },
         (NginxInstaller.checkNginxActive conn st3).2) := by
      rcases ha : NginxInstaller.checkNginxActive conn st3 with ⟨run, st5⟩
      unfold NginxInstaller.checkNginxInstalled
      simp [hp, hcv, hdp, ha]
    obtain ⟨l1, hl1, hall1⟩ :=
      checkNginxPaths_trace conn NginxInstaller.nginxPaths "unknown" ⟨h, []⟩
    rw [hp] at hl1
    simp only [List.nil_append] at hl1
    obtain ⟨l2, hl2, hall2⟩ := checkNginxCommandV_trace conn v1 st1
    rw [hcv] at hl2
    simp only [] at hl2
    have hl3 := checkNginxDpkg_trace conn v2 st2
    rw [hdp] at hl3
    simp only [] at hl3
    have htr : (NginxInstaller.checkNginxInstalled conn ⟨h, []⟩).2.trace =
        ((l1 ++ l2) ++ [NginxInstaller.dpkgCmd]) ++ [NginxInstaller.isActiveCmd] := by
      rw [heq]
      dsimp only
      rw [checkNginxActive_trace, hl3, hl2, hl1]
    refine ⟨heq, ?_⟩
    intro hmem
    rw [htr] at hmem
    rcases List.mem_append.mp hmem with hA | hB
    · rcases List.mem_append.mp hA with hA1 | hA2
      · rcases List.mem_append.mp hA1 with hA11 | hA12
        · obtain ⟨p, hpc⟩ := hall1 _ hA11
          exact vSuffix_ne_listUnits p hpc.symm
        · rcases hall2 _ hA12 with hc | ⟨p, hpc⟩
          · exact absurd hc (by decide)
          · exact vSuffix_ne_listUnits p hpc.symm
      · simp only [List.mem_singleton] at hA2
        exact absurd hA2 (by decide)
    · simp only [List.mem_singleton] at hB
      exact absurd hB (by decide)
  · intro v1 st1 v2 st2 v3 st3 v4 st4 hp hcv hdp hsv
    rcases ha : NginxInstaller.checkNginxActive conn st4 with ⟨run, st5⟩
    unfold NginxInstaller.checkNginxInstalled
    simp [hp, hcv, hdp, hsv, ha]
  · intro v1 st1 v2 st2 v3 st3 v4 st4 hp hcv hdp hsv
    unfold NginxInstaller.checkNginxInstalled
    simp [hp, hcv, hdp, hsv]

/-- Witness for C6: five hosts, one per fallback tier — nginx found at the
first binary path, via `command -v`, via dpkg, via the unit list, and not at
all — each resolved by exactly the expected method with the later detection
commands never dispatched. -/
theorem nginx_probe_fallback_order_witness :
    (NginxInstaller.checkNginxInstalled pathsPositiveConn ⟨(), []⟩ =
      ({ installed := true, version := some "nginx version: nginx/1.29.0",
         running := false },
       ⟨(), ["/usr/sbin/nginx -v 2>&1", "systemctl is-active nginx"]⟩) ∧
     NginxInstaller.dpkgCmd ∉
       (NginxInstaller.checkNginxInstalled pathsPositiveConn ⟨(), []⟩).2.trace) ∧
    NginxInstaller.checkNginxInstalled cmdVPositiveConn ⟨(), []⟩ =
      ({ installed := true, version := some "nginx version: nginx/1.29.0",
         running := false },
       ⟨(), ["/usr/sbin/nginx -v 2>&1", "/usr/bin/nginx -v 2>&1",
         "/usr/local/nginx/sbin/nginx -v 2>&1", "/usr/local/sbin/nginx -v 2>&1",
         "command -v nginx", "/opt/nginx/sbin/nginx -v 2>&1",
         "systemctl is-active nginx"]⟩) ∧
    NginxInstaller.checkNginxInstalled dpkgPositiveConn ⟨(), []⟩ =
      ({ installed := true, version := some "nginx/1.29.0-1~bookworm",
         running := false },
       ⟨(), ["/usr/sbin/nginx -v 2>&1", "/usr/bin/nginx -v 2>&1",
         "/usr/local/nginx/sbin/nginx -v 2>&1", "/usr/local/sbin/nginx -v 2>&1",
         "command -v nginx", NginxInstaller.dpkgCmd,
         "systemctl is-active nginx"]⟩) ∧
    NginxInstaller.checkNginxInstalled servicePositiveConn ⟨(), []⟩ =
      ({ installed := true, version := some "service-installed",
         running := false },
       ⟨(), ["/usr/sbin/nginx -v 2>&1", "/usr/bin/nginx -v 2>&1",
         "/usr/local/nginx/sbin/nginx -v 2>&1", "/usr/local/sbin/nginx -v 2>&1",
         "command -v nginx", NginxInstaller.dpkgCmd,
         NginxInstaller.listUnitsCmd, "systemctl is-active nginx"]⟩) ∧
    NginxInstaller.checkNginxInstalled allFailConn ⟨(), []⟩ =
      ({ installed := false, version := none, running := false },
       ⟨(), ["/usr/sbin/nginx -v 2>&1", "/usr/bin/nginx -v 2>&1",
         "/usr/local/nginx/sbin/nginx -v 2>&1", "/usr/local/sbin/nginx -v 2>&1",
         "command -v nginx", NginxInstaller.dpkgCmd,
         NginxInstaller.listUnitsCmd]⟩) := by
  have hA := (nginx_probe_fallback_order pathsPositiveConn ()).1
    "nginx version: nginx/1.29.0" ⟨(), ["/usr/sbin/nginx -v 2>&1"]⟩ (by decide)
  have hB := (nginx_probe_fallback_order cmdVPositiveConn ()).2.1
    "unknown" ⟨(), ["/usr/sbin/nginx -v 2>&1", "/usr/bin/nginx -v 2>&1",
      "/usr/local/nginx/sbin/nginx -v 2>&1", "/usr/local/sbin/nginx -v 2>&1"]⟩
    "nginx version: nginx/1.29.0" ⟨(), ["/usr/sbin/nginx -v 2>&1",
      "/usr/bin/nginx -v 2>&1", "/usr/local/nginx/sbin/nginx -v 2>&1",
      "/usr/local/sbin/nginx -v 2>&1", "command -v nginx",
      "/opt/nginx/sbin/nginx -v 2>&1"]⟩ (by decide) (by decide)
  have hC := (nginx_probe_fallback_order dpkgPositiveConn ()).2.2.1
    "unknown" ⟨(), ["/usr/sbin/nginx -v 2>&1", "/usr/bin/nginx -v 2>&1",
      "/usr/local/nginx/sbin/nginx -v 2>&1", "/usr/local/sbin/nginx -v 2>&1"]⟩
    "unknown" ⟨(), ["/usr/sbin/nginx -v 2>&1", "/usr/bin/nginx -v 2>&1",
      "/usr/local/nginx/sbin/nginx -v 2>&1", "/usr/local/sbin/nginx -v 2>&1",
      "command -v nginx"]⟩
    "nginx/1.29.0-1~bookworm" ⟨(), ["/usr/sbin/nginx -v 2>&1",
      "/usr/bin/nginx -v 2>&1", "/usr/local/nginx/sbin/nginx -v 2>&1",
      "/usr/local/sbin/nginx -v 2>&1", "command -v nginx",
      NginxInstaller.dpkgCmd]⟩ (by decide) (by decide) (by decide)
  have hD := (nginx_probe_fallback_order servicePositiveConn ()).2.2.2.1
    "unknown" ⟨(), ["/usr/sbin/nginx -v 2>&1", "/usr/bin/nginx -v 2>&1",
      "/usr/local/nginx/sbin/nginx -v 2>&1", "/usr/local/sbin/nginx -v 2>&1"]⟩
    "unknown" ⟨(), ["/usr/sbin/nginx -v 2>&1", "/usr/bin/nginx -v 2>&1",
      "/usr/local/nginx/sbin/nginx -v 2>&1", "/usr/local/sbin/nginx -v 2>&1",
      "command -v nginx"]⟩
    "unknown" ⟨(), ["/usr/sbin/nginx -v 2>&1", "/usr/bin/nginx -v 2>&1",
      "/usr/local/nginx/sbin/nginx -v 2>&1", "/usr/local/sbin/nginx -v 2>&1",
      "command -v nginx", NginxInstaller.dpkgCmd]⟩
    "service-installed" ⟨(), ["/usr/sbin/nginx -v 2>&1", "/usr/bin/nginx -v 2>&1",
      "/usr/local/nginx/sbin/nginx -v 2>&1", "/usr/local/sbin/nginx -v 2>&1",
      "command -v nginx", NginxInstaller.dpkgCmd, NginxInstaller.listUnitsCmd]⟩
    (by decide) (by decide) (by decide) (by decide)
  have hE := (nginx_probe_fallback_order allFailConn ()).2.2.2.2
    "unknown" ⟨(), ["/usr/sbin/nginx -v 2>&1", "/usr/bin/nginx -v 2>&1",
      "/usr/local/nginx/sbin/nginx -v 2>&1", "/usr/local/sbin/nginx -v 2>&1"]⟩
    "unknown" ⟨(), ["/usr/sbin/nginx -v 2>&1", "/usr/bin/nginx -v 2>&1",
      "/usr/local/nginx/sbin/nginx -v 2>&1", "/usr/local/sbin/nginx -v 2>&1",
      "command -v nginx"]⟩
    "unknown" ⟨(), ["/usr/sbin/nginx -v 2>&1", "/usr/bin/nginx -v 2>&1",
      "/usr/local/nginx/sbin/nginx -v 2>&1", "/usr/local/sbin/nginx -v 2>&1",
      "command -v nginx", NginxInstaller.dpkgCmd]⟩
    "unknown" ⟨(), ["/usr/sbin/nginx -v 2>&1", "/usr/bin/nginx -v 2>&1",
      "/usr/local/nginx/sbin/nginx -v 2>&1", "/usr/local/sbin/nginx -v 2>&1",
      "command -v nginx", NginxInstaller.dpkgCmd, NginxInstaller.listUnitsCmd]⟩
    (by decide) (by decide) (by decide) (by decide)
  exact ⟨⟨hA.1.trans (by decide), hA.2.2.1⟩, hB.1.trans (by decide),
    hC.1.trans (by decide), hD.trans (by decide), hE⟩

/-! Claim C5: post-sequence re-verification and the probe round-trip. -/

set_option maxRecDepth 8192 in
/-- Counterexample to C5 as stated: on a host where only the verification's
service fallback (`systemctl is-enabled nginx || systemctl status nginx
--no-pager -l`) exits zero, the probe is negative, the sequence runs and the
post-install verification succeeds — `installNginx` resolves with
`installed: true` — yet probing immediately afterwards still reports
`installed = false`, because the probe's service fallback uses a different
command (`systemctl list-units ... | grep -q nginx`). -/
theorem reverify_roundtrip_cex :
    (NginxInstaller.checkNginxInstalled verifyOnlyConn ⟨(), []⟩).1.installed = false ∧
    (NginxInstaller.installNginx verifyOnlyConn ⟨(), []⟩).1 =
      PResult.resolved
        { installed := true, version := some "service-installed",
          running := true } ∧
    (NginxInstaller.checkNginxInstalled verifyOnlyConn
      ⟨(NginxInstaller.installNginx verifyOnlyConn ⟨(), []⟩).2.host, []⟩).1.installed =
      false :=
  ⟨by decide, by decide, by decide⟩

/-- C5 amended, part 1 (basic tools): on the sequencing path the returned
outcome is derived from a re-run of the idempotency prober after the apt
steps — it reports success exactly when that post-sequence probe finds every
tool, independent of the apt commands' exit codes. -/
theorem installBasicTools_reverifies {σ : Type} (conn : Conn σ)
    (st : ExecState σ) (r : BasicToolsInstaller.ToolsCheckResult)
    (hall : (BasicToolsInstaller.checkBasicToolsInstalled conn st).1.allInstalled = false)
    (hres : (BasicToolsInstaller.installBasicTools conn st).1 = PResult.resolved r) :
    ∃ st2, "sudo apt update" ∈ st2.trace ∧
      ((r.allInstalled = true ∧
        (BasicToolsInstaller.checkBasicToolsInstalled conn st2).1.allInstalled = true ∧
        r = { installed := (BasicToolsInstaller.checkBasicToolsInstalled conn st2).1.installed,
              missing := [], allInstalled := true }) ∨
       (r.allInstalled = false ∧
        r = (BasicToolsInstaller.checkBasicToolsInstalled conn st2).1)) := by
  unfold BasicToolsInstaller.installBasicTools at hres
  rcases hc : BasicToolsInstaller.checkBasicToolsInstalled conn st with ⟨c, s1⟩
  rw [hc] at hres hall
  simp only [] at hall hres
  rw [hall] at hres
  simp only [Bool.false_eq_true, if_false] at hres
  rcases h1 : executeCommand conn s1 "sudo apt update" with ⟨p1, t1⟩
  unfold execStep at hres
  rw [h1] at hres
  have ht1 : t1.trace = s1.trace ++ ["sudo apt update"] := by
    have := executeCommand_trace conn s1 "sudo apt update"
    rw [h1] at this
    exact this
  cases p1 with
  | rejected m => simp at hres
  | resolved r1 =>
      dsimp only at hres
      have hAIext : TraceExtends t1
          ((if (jsJoin " " (c.missing.map BasicToolsInstaller.getPackageName) == "") = true
            then (PResult.resolved (), t1)
            else
              match executeCommand conn t1
                ("sudo apt install -y " ++
                  jsJoin " " (c.missing.map BasicToolsInstaller.getPackageName)) with
              | (PResult.rejected m, s) => (PResult.rejected m, s)
              | (PResult.resolved _, s) => (PResult.resolved (), s)).2) := by
        split
        · exact traceExtends_refl t1
        · rcases he2 : executeCommand conn t1
              ("sudo apt install -y " ++
                jsJoin " " (c.missing.map BasicToolsInstaller.getPackageName))
            with ⟨p2, s2⟩
          have hx : TraceExtends t1 s2 := by
            have := executeCommand_extends conn t1
              ("sudo apt install -y " ++
                jsJoin " " (c.missing.map BasicToolsInstaller.getPackageName))
            rw [he2] at this
            exact this
          cases p2 <;> exact hx
      rcases hai : (if (jsJoin " " (c.missing.map BasicToolsInstaller.getPackageName) == "") = true
          then (PResult.resolved (), t1)
          else
            match executeCommand conn t1
              ("sudo apt install -y " ++
                jsJoin " " (c.missing.map BasicToolsInstaller.getPackageName)) with
            | (PResult.rejected m, s) => (PResult.rejected m, s)
            | (PResult.resolved _, s) => (PResult.resolved (), s)) with ⟨pai, st3⟩
      rw [hai] at hAIext hres
      have hupd : "sudo apt update" ∈ st3.trace := by
        refine mem_of_traceExtends ?_ hAIext
        rw [ht1]
        simp
      cases pai with
      | rejected m => simp at hres
      | resolved u =>
          dsimp only at hres
          rcases hf : BasicToolsInstaller.checkBasicToolsInstalled conn st3 with ⟨fc, st4⟩
          rw [hf] at hres
          dsimp only at hres
          refine ⟨st3, hupd, ?_⟩
          rw [hf]
          by_cases hfc : fc.allInstalled = true
          · rw [if_pos hfc] at hres
            simp only [PResult.resolved.injEq] at hres
            subst hres
            exact Or.inl ⟨rfl, hfc, rfl⟩
          · rw [if_neg hfc] at hres
            simp only [PResult.resolved.injEq] at hres
            subst hres
            exact Or.inr ⟨Bool.not_eq_true fc.allInstalled ▸ hfc, rfl⟩

/-- C5 amended, part 2 (nginx): a fresh-install run resolves only when the
inlined post-install verification chain — re-probing the binary paths,
`command -v`, dpkg and the service manager — succeeded on the post-sequence
state; the result's version is the one that verification found, not
anything derived from the package manager's exit code. -/
theorem installNginx_reverifies {σ : Type} (conn : Conn σ) (st : ExecState σ)
    (r : NginxInstaller.NginxCheckResult)
    (hprobe : (NginxInstaller.checkNginxInstalled conn st).1.installed = false)
    (hres : (NginxInstaller.installNginx conn st).1 = PResult.resolved r) :
    ∃ st2, NginxInstaller.aptInstallNginxCmd ∈ st2.trace ∧
      (NginxInstaller.verifyNginxInstall conn st2).1.1 = true ∧
      r = { installed := true,
            version := some (NginxInstaller.verifyNginxInstall conn st2).1.2,
            running := true } := by
  unfold NginxInstaller.installNginx at hres
  rcases hc : NginxInstaller.checkNginxInstalled conn st with ⟨c, s1⟩
  rw [hc] at hres hprobe
  simp only [] at hprobe hres
  rw [hprobe] at hres
  simp only [Bool.false_eq_true, if_false, execStep] at hres
  repeat' split at hres
  all_goals cases hres
  rename_i x8 r8 s8 heq8 x9 r9 s9 heq9 hv
  have htr : s9.trace = s8.trace ++ [NginxInstaller.aptInstallNginxCmd] := by
    have := executeCommand_trace conn s8 NginxInstaller.aptInstallNginxCmd
    rw [heq9] at this
    exact this
  exact ⟨s9, by rw [htr]; simp, hv, rfl⟩

/-- C5 amended: after the mutating sequence both sequencers re-probe and
derive the returned outcome from that re-probe rather than from the apt
commands' exit codes: the basic-tools façade reports success exactly when
the post-sequence run of its idempotency prober finds every tool, and the
nginx façade resolves only when its inlined post-install verification chain
succeeded. (The probe round-trip claimed by C5 fails for nginx — see the
counterexample — because the verification's service fallback and the
prober's service method use different commands.) -/
theorem sequence_reverification_amended {σ : Type} (conn : Conn σ)
    (st : ExecState σ) :
    (∀ r, (BasicToolsInstaller.checkBasicToolsInstalled conn st).1.allInstalled = false →
      (BasicToolsInstaller.installBasicTools conn st).1 = PResult.resolved r →
      ∃ st2, "sudo apt update" ∈ st2.trace ∧
        ((r.allInstalled = true ∧
          (BasicToolsInstaller.checkBasicToolsInstalled conn st2).1.allInstalled = true ∧
          r = { installed := (BasicToolsInstaller.checkBasicToolsInstalled conn st2).1.installed,
                missing := [], allInstalled := true }) ∨
         (r.allInstalled = false ∧
          r = (BasicToolsInstaller.checkBasicToolsInstalled conn st2).1))) ∧
    (∀ r, (NginxInstaller.checkNginxInstalled conn st).1.installed = false →
      (NginxInstaller.installNginx conn st).1 = PResult.resolved r →
      ∃ st2, NginxInstaller.aptInstallNginxCmd ∈ st2.trace ∧
        (NginxInstaller.verifyNginxInstall conn st2).1.1 = true ∧
        r = { installed := true,
              version := some (NginxInstaller.verifyNginxInstall conn st2).1.2,
              running := true }) :=
  ⟨fun r h1 h2 => installBasicTools_reverifies conn st r h1 h2,
   fun r h1 h2 => installNginx_reverifies conn st r h1 h2⟩

/-- Witness for the amended C5: a fresh host whose apt-install step actually
installs the tools (apt update exiting 1 notwithstanding) yields success
backed by the re-probe, and a fresh nginx host yields a result backed by the
post-install verification. -/
theorem sequence_reverification_amended_witness :
    ((BasicToolsInstaller.checkBasicToolsInstalled toolsFlipConn ⟨false, []⟩).1.allInstalled = false ∧
     (BasicToolsInstaller.installBasicTools toolsFlipConn ⟨false, []⟩).1 =
       PResult.resolved
         { installed := BasicToolsInstaller.tools, missing := [],
           allInstalled := true } ∧
     (∃ st2, "sudo apt update" ∈ st2.trace ∧
       ((({ installed := BasicToolsInstaller.tools, missing := [],
            allInstalled := true } : BasicToolsInstaller.ToolsCheckResult).allInstalled = true ∧
         (BasicToolsInstaller.checkBasicToolsInstalled toolsFlipConn st2).1.allInstalled = true ∧
         ({ installed := BasicToolsInstaller.tools, missing := [],
            allInstalled := true } : BasicToolsInstaller.ToolsCheckResult) =
           { installed := (BasicToolsInstaller.checkBasicToolsInstalled toolsFlipConn st2).1.installed,
             missing := [], allInstalled := true }) ∨
        (({ installed := BasicToolsInstaller.tools, missing := [],
            allInstalled := true } : BasicToolsInstaller.ToolsCheckResult).allInstalled = false ∧
         ({ installed := BasicToolsInstaller.tools, missing := [],
            allInstalled := true } : BasicToolsInstaller.ToolsCheckResult) =
           (BasicToolsInstaller.checkBasicToolsInstalled toolsFlipConn st2).1)))) ∧
    (∃ st2, NginxInstaller.aptInstallNginxCmd ∈ st2.trace ∧
      (NginxInstaller.verifyNginxInstall startFailsConn st2).1.1 = true ∧
      ({ installed := true, version := some "nginx version: nginx/1.29.0",
         running := true } : NginxInstaller.NginxCheckResult) =
        { installed := true,
          version := some (NginxInstaller.verifyNginxInstall startFailsConn st2).1.2,
          running := true }) :=
  ⟨⟨by decide, by decide,
    (sequence_reverification_amended toolsFlipConn ⟨false, []⟩).1
      { installed := BasicToolsInstaller.tools, missing := [], allInstalled := true }
      (by decide) (by decide)⟩,
   (sequence_reverification_amended startFailsConn ⟨false, []⟩).2
     { installed := true, version := some "nginx version: nginx/1.29.0",
       running := true } (by decide) (by decide)⟩

/-! Claim C4: idempotence of a second ensure-installed call. -/

/-- With a non-empty domain, cleaning the existing installation always
dispatches the `rm -f` of the site's nginx config (even when that dispatch
itself is rejected at transport level). -/
theorem cleanExistingInstallation_mem {σ : Type} (conn : Conn σ)
    (domain : String) (st : ExecState σ) (hdom : (domain == "") = false) :
    StaticWebsiteInstaller.rmConfCmd domain ∈
      (StaticWebsiteInstaller.cleanExistingInstallation conn domain st).2.trace := by
  unfold StaticWebsiteInstaller.cleanExistingInstallation
  simp only [hdom, Bool.false_eq_true, if_false]
  rcases he : executeCommand conn st (StaticWebsiteInstaller.rmConfCmd domain) with ⟨p, s1⟩
  have h1 : s1.trace = st.trace ++ [StaticWebsiteInstaller.rmConfCmd domain] := by
    have h := executeCommand_trace conn st (StaticWebsiteInstaller.rmConfCmd domain)
    rw [he] at h
    exact h
  cases p with
  | rejected m =>
      show StaticWebsiteInstaller.rmConfCmd domain ∈ s1.trace
      rw [h1]
      simp
  | resolved r =>
      show StaticWebsiteInstaller.rmConfCmd domain ∈
        (executeCommand conn s1 (StaticWebsiteInstaller.rmWebrootCmd domain)).2.trace
      have h2 := executeCommand_trace conn s1 (StaticWebsiteInstaller.rmWebrootCmd domain)
      rw [h2, h1]
      simp

/-- The SFTP upload step issues no shell command: the trace is unchanged. -/
theorem uploadZipFile_trace {σ : Type} (upload : StaticWebsiteInstaller.Upload σ)
    (cfg : StaticWebsiteInstaller.SWConfig) (st : ExecState σ) :
    (StaticWebsiteInstaller.uploadZipFile upload cfg st).2.trace = st.trace := by
  unfold StaticWebsiteInstaller.uploadZipFile
  by_cases hc : (cfg.zipFilePath == "" || !cfg.zipExists) = true
  · rw [if_pos hc]
  · rw [if_neg hc]
    dsimp only
    rcases upload st.host ("/tmp/" ++ StaticWebsiteInstaller.basename cfg.zipFilePath)
      with ⟨p, h⟩
    cases p <;> rfl

/-- Extraction only appends to the trace. -/
theorem extractZipFile_extends {σ : Type} (conn : Conn σ)
    (domain remoteZipPath : String) (st : ExecState σ) :
    TraceExtends st (StaticWebsiteInstaller.extractZipFile conn domain remoteZipPath st).2 := by
  unfold StaticWebsiteInstaller.extractZipFile
  by_cases hd : (domain == "") = true
  · rw [if_pos hd]
    exact traceExtends_refl st
  · rw [if_neg hd]
    refine execStep_extends _ _ _ _ ?_
    intro _ s1
    refine execStep_extends _ _ _ _ ?_
    intro _ s2
    refine execStep_extends _ _ _ _ ?_
    intro _ s3
    refine execStep_extends _ _ _ _ ?_
    intro _ s4
    refine execStep_extends _ _ _ _ ?_
    intro _ s5
    refine execStep_extends _ _ _ _ ?_
    intro _ s6
    refine execStep_extends _ _ _ _ ?_
    intro _ s7
    refine execStep_extends _ _ _ _ ?_
    intro _ s8
    refine execStep_extends _ _ _ _ ?_
    intro _ s9
    refine execStep_extends _ _ _ _ ?_
    intro _ s10
    refine execStep_extends _ _ _ _ ?_
    intro _ s11
    refine execStep_extends _ _ _ _ ?_
    intro _ s12
    refine execStep_extends _ _ _ _ ?_
    intro _ s13
    refine execStep_extends _ _ _ _ ?_
    intro r14 s14
    dsimp only
    have htail : ∀ s' : ExecState σ, TraceExtends s'
        (execStep conn s' "sudo tail -10 /var/log/nginx/error.log 2>/dev/null || echo \"No nginx error logs found\""
          (fun _ s16 => execStep conn s16 ("sudo rm -f " ++ remoteZipPath)
            (fun _ s17 => (PResult.resolved (), s17)))).2 := by
      intro s'
      refine execStep_extends _ _ _ _ ?_
      intro _ s16
      refine execStep_extends _ _ _ _ ?_
      intro _ s17
      exact traceExtends_refl s17
    split
    · rename_i m s heq
      by_cases hc : (r14.exitCode == 0) = true
      · rw [if_pos hc] at heq
        have h2 := execStep_extends conn s14
          "sudo systemctl reload nginx 2>&1 || sudo service nginx reload 2>&1"
          (fun _ s => ((PResult.resolved (), s) : PResult Unit × ExecState σ))
          (fun r s => traceExtends_refl s)
        rw [heq] at h2
        exact h2
      · rw [if_neg hc] at heq
        simp at heq
    · rename_i u s15 heq
      have hx : TraceExtends s14 s15 := by
        by_cases hc : (r14.exitCode == 0) = true
        · rw [if_pos hc] at heq
          have h2 := execStep_extends conn s14
            "sudo systemctl reload nginx 2>&1 || sudo service nginx reload 2>&1"
            (fun _ s => ((PResult.resolved (), s) : PResult Unit × ExecState σ))
            (fun r s => traceExtends_refl s)
          rw [heq] at h2
          exact h2
        · rw [if_neg hc] at heq
          have hs : s14 = s15 := congrArg Prod.snd heq
          rw [← hs]
          exact traceExtends_refl s14
      exact traceExtends_trans hx (htail s15)

/-- Writing the nginx configuration only appends to the trace. -/
theorem createNginxConfig_extends {σ : Type} (conn : Conn σ) (domain : String)
    (hasSSL : Bool) (st : ExecState σ) :
    TraceExtends st (StaticWebsiteInstaller.createNginxConfig conn domain hasSSL st).2 := by
  unfold StaticWebsiteInstaller.createNginxConfig
  by_cases hd : (domain == "") = true
  · rw [if_pos hd]
    exact traceExtends_refl st
  · rw [if_neg hd]
    refine execStep_extends _ _ _ _ ?_
    intro _ s1
    refine execStep_extends _ _ _ _ ?_
    intro _ s2
    refine execStep_extends _ _ _ _ ?_
    intro r3 s3
    dsimp only
    by_cases hc : (r3.exitCode != 0) = true
    · rw [if_pos hc]
      exact traceExtends_refl s3
    · rw [if_neg hc]
      refine execStep_extends _ _ _ _ ?_
      intro _ s4
      exact traceExtends_refl s4

/-- Every resolving run of the static-website façade dispatches the mutating
`sudo rm -f /etc/nginx/conf.d/<domain>.conf` — there is no already-configured
skip path. -/
theorem installStaticWebsite_mutates {σ : Type} (conn : Conn σ)
    (upload : StaticWebsiteInstaller.Upload σ)
    (cfg : StaticWebsiteInstaller.SWConfig) (st : ExecState σ)
    (r : StaticWebsiteInstaller.StaticWebsiteResult) (st2 : ExecState σ)
    (hres : StaticWebsiteInstaller.installStaticWebsite conn upload cfg st =
      (PResult.resolved r, st2)) :
    StaticWebsiteInstaller.rmConfCmd cfg.domain ∈ st2.trace := by
  unfold StaticWebsiteInstaller.installStaticWebsite at hres
  repeat' split at hres
  all_goals cases hres
  rename_i hguard x1 nc st1 heq1 hin x2 ssl st2x heq2 x3 u3 st3 heq3 x4 rp st4 heq4 x5 u5 st5 heq5 x6 u6 heq6
  have hdom : (cfg.domain == "") = false := by
    cases hd : cfg.domain == ""
    · rfl
    · exact absurd (by rw [hd]; simp) hguard
  have hm3 : StaticWebsiteInstaller.rmConfCmd cfg.domain ∈ st3.trace := by
    have h := cleanExistingInstallation_mem conn cfg.domain st2x hdom
    rw [heq3] at h
    exact h
  have ht4 : st4.trace = st3.trace := by
    have h := uploadZipFile_trace upload cfg st3
    rw [heq4] at h
    exact h
  have hx5 : TraceExtends st4 st5 := by
    have h := extractZipFile_extends conn cfg.domain rp st4
    rw [heq5] at h
    exact h
  have hx6 : TraceExtends st5 st2 := by
    have h := createNginxConfig_extends conn cfg.domain ssl st5
    rw [heq6] at h
    exact h
  exact mem_of_traceExtends
    (mem_of_traceExtends (by rw [ht4]; exact hm3) hx5) hx6

set_option maxRecDepth 16384 in
/-- C4 counterexample: a first static-website run against a host on which
every command succeeds resolves with `success:=true` (the host is then fully
configured), yet the second run — started on the host the first run produced —
still dispatches the mutating `sudo rm -f /etc/nginx/conf.d/example.com.conf`
instead of probing and skipping. -/
theorem static_site_second_call_mutates_cex :
    (StaticWebsiteInstaller.installStaticWebsite allOkConn okUpload swExampleCfg
      ⟨(), []⟩).1 =
      PResult.resolved
        { success := true, domain := "example.com",
          webroot := "/opt/webroot/example.com",
          nginxConfig := "/etc/nginx/conf.d/example.com.conf", hasSSL := false } ∧
    StaticWebsiteInstaller.rmConfCmd "example.com" ∈
      (StaticWebsiteInstaller.installStaticWebsite allOkConn okUpload swExampleCfg
        ⟨(StaticWebsiteInstaller.installStaticWebsite allOkConn okUpload swExampleCfg
            ⟨(), []⟩).2.host, []⟩).2.trace :=
  ⟨by decide, by decide⟩

/-- C4 (amended): the probe-gated façades are idempotent — a second call whose
probe reports the target already configured returns the probe result with the
probe's session state, issuing zero commands beyond the probe — but the
static-website façade is not: every resolving call, in particular a second
call against a host the first call fully configured, dispatches the mutating
removal of the site's nginx configuration. -/
theorem ensure_installed_twice_amended {σ : Type} (conn : Conn σ)
    (st : ExecState σ) :
    ((BasicToolsInstaller.checkBasicToolsInstalled conn st).1.allInstalled = true →
      BasicToolsInstaller.installBasicTools conn st =
        (PResult.resolved (BasicToolsInstaller.checkBasicToolsInstalled conn st).1,
         (BasicToolsInstaller.checkBasicToolsInstalled conn st).2)) ∧
    ((NginxInstaller.checkNginxInstalled conn st).1.installed = true →
      NginxInstaller.installNginx conn st =
        (PResult.resolved (NginxInstaller.checkNginxInstalled conn st).1,
         (NginxInstaller.checkNginxInstalled conn st).2)) ∧
    (∀ (upload : StaticWebsiteInstaller.Upload σ)
       (cfg : StaticWebsiteInstaller.SWConfig)
       (r : StaticWebsiteInstaller.StaticWebsiteResult) (st2 : ExecState σ),
      StaticWebsiteInstaller.installStaticWebsite conn upload cfg st =
        (PResult.resolved r, st2) →
      StaticWebsiteInstaller.rmConfCmd cfg.domain ∈ st2.trace) :=
  ⟨fun h => installBasicTools_skip conn st h,
   fun h => installNginx_skip conn st h,
   fun upload cfg r st2 h => installStaticWebsite_mutates conn upload cfg st r st2 h⟩

set_option maxRecDepth 16384 in
/-- Witness for the amended C4 on a fully-configured host: both probe-gated
façades skip, while the static-website façade's resolving run dispatches the
mutating config removal. -/
theorem ensure_installed_twice_amended_witness :
    (BasicToolsInstaller.installBasicTools fullHostConn ⟨(), []⟩ =
      (PResult.resolved (BasicToolsInstaller.checkBasicToolsInstalled fullHostConn ⟨(), []⟩).1,
       (BasicToolsInstaller.checkBasicToolsInstalled fullHostConn ⟨(), []⟩).2)) ∧
    (NginxInstaller.installNginx fullHostConn ⟨(), []⟩ =
      (PResult.resolved (NginxInstaller.checkNginxInstalled fullHostConn ⟨(), []⟩).1,
       (NginxInstaller.checkNginxInstalled fullHostConn ⟨(), []⟩).2)) ∧
    StaticWebsiteInstaller.rmConfCmd "example.com" ∈
      (StaticWebsiteInstaller.installStaticWebsite fullHostConn okUpload swExampleCfg
        ⟨(), []⟩).2.trace :=
  ⟨(ensure_installed_twice_amended fullHostConn ⟨(), []⟩).1 (by decide),
   (ensure_installed_twice_amended fullHostConn ⟨(), []⟩).2.1 (by decide),
   (ensure_installed_twice_amended fullHostConn ⟨(), []⟩).2.2 okUpload swExampleCfg
     { success := true, domain := "example.com",
       webroot := "/opt/webroot/example.com",
       nginxConfig := "/etc/nginx/conf.d/example.com.conf", hasSSL := false }
     (StaticWebsiteInstaller.installStaticWebsite fullHostConn okUpload swExampleCfg
        ⟨(), []⟩).2
     (Prod.ext_iff.mpr ⟨by decide, rfl⟩)⟩
